import Mathlib

/-!
Verification of the crashlens detector core against its specification.

This file gives a shallow embedding of the Python sources under
`src/crashlens/` (retry-loop, fallback-storm, overkill-model and
expensive-model-short detectors, plus the prioritized-detection pipeline of
`__main__.py`) and proves or refutes the specified properties.

Modelling conventions:
* A Python dict record is a structure of `Option`-typed fields; `none`
  means the key is absent.  `r.get(k, d)` becomes `Option.getD`.
* Timestamps are modelled exactly as `datetime` does internally: integer
  microseconds (a `datetime` value has microsecond resolution, and
  `timedelta` comparison is exact integer comparison at that resolution).
* Python `float` money values are modelled as exact rationals `ℚ`.
  Money never occurs in a branch condition of the embedded code, so this
  changes no control flow.
* Code that can raise (`datetime.fromisoformat` on a bad string, a missing
  dict key read with `[]`) is embedded in `Except String`.
* The `sentence_transformers` dependency is unavailable in the modelled
  configuration, so `RetryLoopDetector` runs in its exact-string-match
  fallback branch (`self.model is None`), as the source provides.
-/

namespace Crashlens

/-! ## Timestamps: `datetime.fromisoformat`

The detectors call `datetime.fromisoformat(s.replace('Z', '+00:00'))`.
We model the parse as `String → Option Int` returning microseconds since
the civil epoch 1970-01-01 (offset-aware values are normalised to UTC;
naive values are taken at offset zero, which is sound because we only
ever compare differences of timestamps of the same shape).
`none` models `ValueError`.  The accepted grammar is the pre-3.11
`fromisoformat` one: `YYYY-MM-DD`, optionally followed by a separator and
`HH:MM[:SS[.f{1,6}]]`, optionally followed by `±HH:MM`. -/

/-- One decimal digit of a char, if it is a digit. -/
def digitVal (c : Char) : Option Nat :=
  if c.isDigit then some (c.toNat - 48) else none

/-- Read exactly two digits. -/
def read2 : List Char → Option (Nat × List Char)
  | a :: b :: rest => do
    let x ← digitVal a
    let y ← digitVal b
    pure (10 * x + y, rest)
  | _ => none

/-- Read exactly four digits. -/
def read4 : List Char → Option (Nat × List Char)
  | a :: b :: c :: d :: rest => do
    let x ← digitVal a
    let y ← digitVal b
    let z ← digitVal c
    let w ← digitVal d
    pure (1000 * x + 100 * y + 10 * z + w, rest)
  | _ => none

/-- Expect a literal character. -/
def expectChar (c : Char) : List Char → Option (List Char)
  | x :: rest => if x = c then some rest else none
  | _ => none

/-- Days in a month of the proleptic Gregorian calendar. -/
def daysInMonth (y m : Nat) : Nat :=
  if m = 2 then
    if y % 4 = 0 && (y % 100 ≠ 0 || y % 400 = 0) then 29 else 28
  else if m = 4 || m = 6 || m = 9 || m = 11 then 30
  else 31

/-- Days from civil date to the 1970-01-01 epoch (standard civil-from-days
algorithm, truncating integer division as in the reference algorithm). -/
def daysFromCivil (y : Int) (m d : Nat) : Int :=
  let y' : Int := if m ≤ 2 then y - 1 else y
  let era : Int := (if 0 ≤ y' then y' else y' - 399) / 400
  let yoe : Int := y' - era * 400
  let mp : Int := ((m : Int) + 9) % 12
  let doy : Int := (153 * mp + 2) / 5 + (d : Int) - 1
  let doe : Int := yoe * 365 + yoe / 4 - yoe / 100 + doy
  era * 146097 + doe - 719468

/-- Read an optional fractional-second part `.d{1,6}`, as microseconds. -/
def readFraction : List Char → Option (Nat × List Char)
  | '.' :: rest =>
    let digits := rest.takeWhile Char.isDigit
    let rest' := rest.dropWhile Char.isDigit
    if digits.length = 0 || 6 < digits.length then none
    else
      let v := digits.foldl (fun acc c => acc * 10 + (c.toNat - 48)) 0
      some (v * 10 ^ (6 - digits.length), rest')
  | rest => some (0, rest)

/-- Read a trailing UTC offset `±HH:MM` (empty input means no offset),
returning the offset in microseconds. -/
def readOffset : List Char → Option Int
  | [] => some 0
  | sign :: rest =>
    if sign = '+' || sign = '-' then do
      let (oh, rest) ← read2 rest
      let rest ← expectChar ':' rest
      let (om, rest) ← read2 rest
      if rest = [] && oh ≤ 23 && om ≤ 59 then
        let v : Int := (oh : Int) * 3600000000 + (om : Int) * 60000000
        some (if sign = '-' then -v else v)
      else none
    else none

/-- Read `HH:MM[:SS[.frac]]` then an optional offset; returns microseconds
into the day minus the offset. -/
def readTimePart (cs : List Char) : Option Int := do
  let (h, cs) ← read2 cs
  let cs ← expectChar ':' cs
  let (mi, cs) ← read2 cs
  if 23 < h || 59 < mi then none
  else
    let base : Int := (h : Int) * 3600000000 + (mi : Int) * 60000000
    match cs with
    | ':' :: cs => do
      let (s, cs) ← read2 cs
      if 59 < s then none
      else do
        let (frac, cs) ← readFraction cs
        let off ← readOffset cs
        pure (base + (s : Int) * 1000000 + (frac : Int) - off)
    | cs => do
      let off ← readOffset cs
      pure (base - off)

/-- Model of `datetime.fromisoformat`, in microseconds since 1970-01-01
UTC.  `none` models `ValueError`. -/
def fromisoformat (s : String) : Option Int := do
  let cs := s.data
  let (y, cs) ← read4 cs
  let cs ← expectChar '-' cs
  let (mo, cs) ← read2 cs
  let cs ← expectChar '-' cs
  let (d, cs) ← read2 cs
  if mo < 1 || 12 < mo || d < 1 || daysInMonth y mo < d then none
  else
    let dayUs : Int := daysFromCivil (y : Int) mo d * 86400000000
    match cs with
    | [] => pure dayUs
    | sep :: cs =>
      if sep = 'T' || sep = ' ' then do
        let t ← readTimePart cs
        pure (dayUs + t)
      else none

/-! ## Call records

One logged LLM invocation, as the detectors read it: a dict whose keys may
be absent.  The nested `usage` dict is flattened into the two fields the
code reads from it. -/

/-- A call record; `none` fields model absent dict keys.  `cost` models a
present, non-`None` `cost` value (a JSON-null cost is treated as absent,
which the claims never distinguish). -/
structure CallRecord where
  startTime : Option String := none
  prompt : Option String := none
  model : Option String := none
  prompt_tokens : Option Int := none
  completion_tokens : Option Int := none
  cost : Option ℚ := none
  usage_prompt_tokens : Option Int := none
  usage_completion_tokens : Option Int := none
  completion : Option String := none
  output : Option String := none
  error : Option String := none
  failed : Option Bool := none
deriving Repr, DecidableEq, Inhabited

/-- Decidable equality for `Except`, used to evaluate the embedded
fallible operations on concrete inputs. -/
instance {ε α : Type} [DecidableEq ε] [DecidableEq α] :
    DecidableEq (Except ε α) := fun x y =>
  match x, y with
  | .ok a, .ok b =>
      if h : a = b then isTrue (by rw [h]) else isFalse (by simp [h])
  | .error a, .error b =>
      if h : a = b then isTrue (by rw [h]) else isFalse (by simp [h])
  | .ok _, .error _ => isFalse (by simp)
  | .error _, .ok _ => isFalse (by simp)

/-- Python truthiness of an optional string: `None` and `''` are falsy. -/
def truthyStr : Option String → Bool
  | none => false
  | some s => s ≠ ""

/-- A trace map, in dict insertion order: `Map<trace_id, List<CallRecord>>`. -/
abbrev Traces := List (String × List CallRecord)

/-- One row of the pricing table. -/
structure PricingRow where
  input_cost_per_1k : ℚ := 0
  output_cost_per_1k : ℚ := 0
deriving Repr, DecidableEq, Inhabited

/-- The pricing table `Map<model, PricingRow>`; the empty list models both
`None` and `{}` (they behave identically under `if not model_pricing`). -/
abbrev Pricing := List (String × PricingRow)

/-- Model of `s.replace('Z', '+00:00')`: replace every occurrence of the
one-character pattern. -/
def replaceZ (s : String) : String :=
  ⟨s.data.flatMap fun c => if c = 'Z' then ['+', '0', '0', ':', '0', '0'] else [c]⟩

/-- Parse a record's `startTime` exactly as the detectors do:
`datetime.fromisoformat(r['startTime'].replace('Z', '+00:00'))`.
A missing key models `KeyError`, an unparsable string `ValueError`. -/
def parseStart (r : CallRecord) : Except String Int :=
  match r.startTime with
  | none => .error "KeyError: startTime"
  | some s =>
    match fromisoformat (replaceZ s) with
    | none => .error "ValueError: invalid isoformat string"
    | some t => .ok t

/-! ## Stable sorting by key

Python's `sorted` is a stable sort by key.  Insertion sort inserting each
element in front of later elements with an equal key is stable.  The
comparison is passed as an explicit boolean so the sort evaluates inside
the kernel. -/

/-- Code-point lexicographic order on char lists, as Python compares
strings. -/
def charsLe : List Char → List Char → Bool
  | [], _ => true
  | _ :: _, [] => false
  | a :: as, b :: bs =>
    if a.toNat < b.toNat then true
    else if b.toNat < a.toNat then false
    else charsLe as bs

/-- Python string `<=` (code-point lexicographic). -/
def strLe (a b : String) : Bool := charsLe a.data b.data

/-- Insert `a` into `l` before the first element with a strictly larger
key (so in front of no element with an equal key that came later). -/
def insertByKey {α κ : Type} (le : κ → κ → Bool) (k : α → κ) (a : α) :
    List α → List α
  | [] => [a]
  | b :: bs => if le (k a) (k b) then a :: b :: bs else b :: insertByKey le k a bs

/-- Stable sort by key, modelling Python `sorted(l, key=k)`. -/
def sortByKey {α κ : Type} (le : κ → κ → Bool) (k : α → κ) : List α → List α
  | [] => []
  | a :: as => insertByKey le k a (sortByKey le k as)

/-- Boolean chain over consecutive elements of a list. -/
def chainB {α : Type} (R : α → α → Bool) : List α → Bool
  | [] => true
  | [_] => true
  | a :: b :: t => R a b && chainB R (b :: t)

/-! ## Detections

Python builds heterogeneous dicts; we use one structure with optional
fields, covering every key any embedded detector writes.  A detector that
writes no `records` key is modelled with `records = []`, which is
indistinguishable from the source's `detection.get('records', [])`. -/

/-- The `suppression_notes` sub-dict written by `_run_prioritized_detection`. -/
structure SuppressionNotes where
  suppressed_detectors : List String
  reason : Option String
deriving Repr, DecidableEq, Inhabited

/-- A detection record. -/
structure Detection where
  dtype : String
  trace_id : String
  severity : String := "medium"
  description : String := ""
  waste_tokens : Option Int := none
  waste_cost : Option ℚ := none
  retry_count : Option Nat := none
  time_span : Option Int := none
  sample_prompt : Option String := none
  detection_method : Option String := none
  fallback_count : Option Nat := none
  models_sequence : Option (List String) := none
  model : Option String := none
  model_used : Option String := none
  suggested_model : Option String := none
  prompt_tokens : Option Nat := none
  prompt_length : Option Int := none
  reason : Option String := none
  estimated_cost_usd : Option ℚ := none
  overkill_detected : Option Bool := none
  primary_model : Option String := none
  fallback_model : Option String := none
  time_between_calls : Option Int := none
  records : List CallRecord := []
  suppression_notes : Option SuppressionNotes := none
deriving Repr, DecidableEq, Inhabited

/-! ## Shared cost helpers

`_calculate_record_cost` appears verbatim in `retry_loops.py` and
`short_model_detector.py`; `_calculate_cost_with_model` in
`short_model_detector.py` and `overkill_model_detector.py` (module level).
We embed them once. -/

/-- Embeds `_calculate_record_cost(record, model_pricing)`. -/
def calculateRecordCost (r : CallRecord) (mp : Pricing) : ℚ :=
  if mp.isEmpty then r.cost.getD 0
  else
    match r.cost with
    | some c => c
    | none =>
      let model := r.model.getD "gpt-3.5-turbo"
      match mp.lookup model with
      | some row =>
          ((r.prompt_tokens.getD 0 : ℚ) / 1000) * row.input_cost_per_1k +
          ((r.completion_tokens.getD 0 : ℚ) / 1000) * row.output_cost_per_1k
      | none => 0

/-- Embeds `_calculate_cost_with_model(record, new_model, model_pricing)`. -/
def calculateCostWithModel (r : CallRecord) (newModel : String) (mp : Pricing) : ℚ :=
  if mp.isEmpty then 0
  else
    match mp.lookup newModel with
    | some row =>
        ((r.prompt_tokens.getD 0 : ℚ) / 1000) * row.input_cost_per_1k +
        ((r.completion_tokens.getD 0 : ℚ) / 1000) * row.output_cost_per_1k
    | none => 0

/-! ## Retry-Loop Detector (`src/crashlens/detectors/retry_loops.py`)

Embedded in its exact-string-match mode (`self.model is None`, the branch
taken when `sentence_transformers` is unavailable or fails to load). -/

/-- The detector state set up by `RetryLoopDetector.__init__` (thresholds
only; the similarity model is `None` in the modelled configuration).
`time_window` is `timedelta(minutes=time_window_minutes)` in microseconds. -/
structure RetryLoopDetector where
  max_retries : Int
  time_window : Int
  similarity_threshold : ℚ
deriving Repr, DecidableEq, Inhabited

namespace RetryLoopDetector

/-- Embeds `RetryLoopDetector.__init__`: raises `ValueError` when
`max_retries < 1`, otherwise stores the thresholds. -/
def init (max_retries : Int) (time_window_minutes : Int)
    (similarity_threshold : ℚ) : Except String RetryLoopDetector :=
  if max_retries < 1 then .error "max_retries must be at least 1."
  else .ok ⟨max_retries, time_window_minutes * 60000000, similarity_threshold⟩

/-- The `are_similar` computation of `_find_retry_groups` in the
exact-match fallback branch: both prompts must be truthy and equal. -/
def areSimilar (prev curr : CallRecord) : Bool :=
  match prev.prompt, curr.prompt with
  | some p, some q => p ≠ "" && q ≠ "" && p = q
  | _, _ => false

/-- The grouping loop of `_find_retry_groups` (lines 160–195): walk the
sorted records, extending the current group when the consecutive pair is
similar and within the time window, else closing it.  The timestamp parse
of each pair happens unconditionally, so an unparsable `startTime` is an
uncaught `ValueError`. -/
def groupsAux (det : RetryLoopDetector) (prev : CallRecord)
    (cur : List CallRecord) (acc : List (List CallRecord)) :
    List CallRecord → Except String (List (List CallRecord))
  | [] => .ok (acc ++ [cur])
  | c :: rest =>
    match parseStart prev, parseStart c with
    | .error e, _ => .error e
    | .ok _, .error e => .error e
    | .ok pt, .ok ct =>
      if areSimilar prev c && ct - pt ≤ det.time_window then
        groupsAux det c (cur ++ [c]) acc rest
      else
        groupsAux det c [c] (acc ++ [cur]) rest

/-- Embeds `_find_retry_groups`: keep records having a `startTime` key,
sort them by that raw string (Python sorts by the string key; with string
keys the guarded `sorted` call cannot raise), then run the grouping loop. -/
def findRetryGroups (det : RetryLoopDetector) (records : List CallRecord) :
    Except String (List (List CallRecord)) :=
  let sorted := sortByKey strLe (fun r => r.startTime.getD "")
    (records.filter (fun r => r.startTime.isSome))
  match sorted with
  | [] => .ok []
  | r0 :: rest => groupsAux det r0 [r0] [] rest

/-- Embeds `_get_time_span` (microseconds; the source rounds the float of
seconds for display, which we omit as it never feeds back into logic). -/
def getTimeSpan (records : List CallRecord) : Int :=
  if records.length < 2 then 0
  else
    let ts := records.filterMap fun r =>
      r.startTime.bind fun s => fromisoformat (replaceZ s)
    match ts with
    | [] => 0
    | [_] => 0
    | t :: rest => rest.foldl max t - rest.foldl min t

/-- Builds the detection dict of `RetryLoopDetector.detect` for one group
(lines 97–118). -/
def mkDetection (tid : String)
    (g : List CallRecord) (mp : Pricing) : Detection :=
  let totalTokens := (g.map fun r => r.completion_tokens.getD 0).sum
  let totalCost := (g.map fun r => calculateRecordCost r mp).sum
  let sample := match g with
    | [] => "N/A"
    | r :: _ => r.prompt.getD "N/A"
  { dtype := "retry_loop"
    trace_id := tid
    severity := if 5 < g.length then "high" else "medium"
    description := "Retry loop detected with " ++ toString g.length ++
      " similar calls for the same trace."
    waste_tokens := some totalTokens
    waste_cost := some totalCost
    retry_count := some g.length
    time_span := some (getTimeSpan g)
    sample_prompt := some (sample.take 150 ++
      (if 150 < sample.length then "..." else ""))
    detection_method := some "exact_match"
    records := g }

/-- The per-trace loop of `detect`. -/
def detectAux (det : RetryLoopDetector) (mp : Pricing) :
    Traces → Except String (List Detection)
  | [] => .ok []
  | (tid, records) :: rest =>
    if (records.length : Int) ≤ det.max_retries then detectAux det mp rest
    else
      match det.findRetryGroups records with
      | .error e => .error e
      | .ok groups =>
        match detectAux det mp rest with
        | .error e => .error e
        | .ok laterDs =>
          .ok ((groups.filterMap fun g =>
            if det.max_retries < (g.length : Int) then
              some (mkDetection tid g mp)
            else none) ++ laterDs)

/-- Embeds `RetryLoopDetector.detect(traces, model_pricing)`. -/
def detect (det : RetryLoopDetector) (traces : Traces) (mp : Pricing) :
    Except String (List Detection) :=
  detectAux det mp traces

end RetryLoopDetector

/-! ## Fallback-Storm Detector (`src/crashlens/detectors/fallback_storm.py`) -/

/-- Integer absolute value by cases (kernel-friendly). -/
def intAbs (i : Int) : Int := if i < 0 then -i else i

/-- First-occurrence-order deduplication, modelling
`list(dict.fromkeys(models_used))`. -/
def uniqueAux (seen : List String) : List String → List String
  | [] => []
  | m :: ms =>
    if seen.contains m then uniqueAux seen ms
    else m :: uniqueAux (seen ++ [m]) ms

/-- First-occurrence-order deduplication of a string list. -/
def uniqueOrdered (l : List String) : List String := uniqueAux [] l

/-- The detector state set up by `FallbackStormDetector.__init__`.
`time_window` is `timedelta(minutes=time_window_minutes)` in microseconds. -/
structure FallbackStormDetector where
  fallback_threshold : Nat := 3
  time_window : Int := 600000000
deriving Repr, DecidableEq, Inhabited

namespace FallbackStormDetector

/-- Embeds `_is_similar_prompt`: both prompts truthy, and either the same
first 50 characters or lengths within 20 of each other. -/
def isSimilarPrompt (r1 r2 : CallRecord) : Bool :=
  let p1 := r1.prompt.getD ""
  let p2 := r2.prompt.getD ""
  if p1 = "" || p2 = "" then false
  else p1.take 50 = p2.take 50 || intAbs ((p1.length : Int) - (p2.length : Int)) < 20

/-- The grouping loop of `_find_fallback_patterns` (lines 63–91): extend
the current group when the next record is within the window of the group's
last record, changes model, and has a similar prompt; otherwise flush the
group if it reached the threshold.  Both timestamps are read with
`record['startTime']` and parsed unconditionally, so a missing key is an
uncaught `KeyError` and a bad string an uncaught `ValueError`. -/
def stormAux (det : FallbackStormDetector) (cur : List CallRecord)
    (acc : List (List CallRecord)) :
    List CallRecord → Except String (List (List CallRecord))
  | [] => .ok (if det.fallback_threshold ≤ cur.length then acc ++ [cur] else acc)
  | c :: rest =>
    match cur.getLast? with
    | none => .error "IndexError: list index out of range"
    | some last =>
      match parseStart c with
      | .error e => .error e
      | .ok ct =>
        match parseStart last with
        | .error e => .error e
        | .ok lt =>
          let timeDiff := intAbs (ct - lt)
          let currentModel := c.model.getD ""
          let lastModel := last.model.getD ""
          if timeDiff ≤ det.time_window && currentModel ≠ lastModel &&
              isSimilarPrompt c last then
            stormAux det (cur ++ [c]) acc rest
          else
            stormAux det [c]
              (if det.fallback_threshold ≤ cur.length then acc ++ [cur] else acc)
              rest

/-- Embeds `_find_fallback_patterns`: traces of fewer than two records are
ignored; otherwise the records are sorted by `r.get('startTime', '')` and
walked by `stormAux`. -/
def findFallbackPatterns (det : FallbackStormDetector)
    (records : List CallRecord) : Except String (List (List CallRecord)) :=
  if records.length < 2 then .ok []
  else
    match sortByKey strLe (fun r => r.startTime.getD "") records with
    | [] => .ok []
    | r0 :: rest => stormAux det [r0] [] rest

/-- Embeds the storm `_get_time_span` (microseconds; string formatting of
the source is display-only and omitted). -/
def getTimeSpan (records : List CallRecord) : Int :=
  if records.length < 2 then 0
  else
    let ts := records.filterMap fun r =>
      r.startTime.bind fun s => fromisoformat (replaceZ s)
    match ts with
    | [] => 0
    | [_] => 0
    | t :: rest => rest.foldl max t - rest.foldl min t

/-- Builds the detection dict of `FallbackStormDetector.detect` for one
group (lines 27–47). -/
def mkDetection (tid : String) (g : List CallRecord) : Detection :=
  let totalTokens := (g.map fun r => r.completion_tokens.getD 0).sum
  let totalCost := (g.map fun r => r.cost.getD 0).sum
  let modelsUsed := g.map fun r => r.model.getD "unknown"
  let sample := match g with
    | [] => ""
    | r :: _ => r.prompt.getD ""
  { dtype := "fallback_storm"
    trace_id := tid
    severity := if 5 < g.length then "high" else "medium"
    description := "Fallback storm detected: " ++ toString g.length ++
      " model switches"
    waste_tokens := some totalTokens
    waste_cost := some totalCost
    fallback_count := some g.length
    models_sequence := some (uniqueOrdered modelsUsed)
    time_span := some (getTimeSpan g)
    sample_prompt := some (if 100 < sample.length then sample.take 100 ++ "..." else sample)
    records := g }

/-- The per-trace loop of `detect`. -/
def detectAux (det : FallbackStormDetector) :
    Traces → Except String (List Detection)
  | [] => .ok []
  | (tid, records) :: rest =>
    match det.findFallbackPatterns records with
    | .error e => .error e
    | .ok groups =>
      match detectAux det rest with
      | .error e => .error e
      | .ok laterDs =>
        .ok ((groups.filterMap fun g =>
          if det.fallback_threshold ≤ g.length then some (mkDetection tid g)
          else none) ++ laterDs)

/-- Embeds `FallbackStormDetector.detect(traces)`. -/
def detect (det : FallbackStormDetector) (traces : Traces) :
    Except String (List Detection) :=
  detectAux det traces

end FallbackStormDetector

/-! ## Overkill-Model Detector
(`src/crashlens/detectors/overkill_model_detector.py`).  This detector is
total: it never reads timestamps. -/

/-- ASCII lowercase of a string, modelling `str.lower()` on the ASCII
model names and prompts the detectors compare. -/
def strLower (s : String) : String := ⟨s.data.map Char.toLower⟩

/-- ASCII uppercase of a string, modelling `str.upper()`. -/
def strUpper (s : String) : String := ⟨s.data.map Char.toUpper⟩

/-- Python `needle in hay` substring test. -/
def isSubstr (needle hay : String) : Bool :=
  needle.data.isEmpty || hay.data.tails.any fun t => needle.data.isPrefixOf t

/-- Python `s.startswith(p)`. -/
def strStartsWith (s p : String) : Bool := p.data.isPrefixOf s.data

/-- Python `s.strip()` (whitespace at both ends removed). -/
def strStrip (s : String) : String :=
  ⟨((s.data.dropWhile Char.isWhitespace).reverse.dropWhile Char.isWhitespace).reverse⟩

/-- Word count of Python `len(text.split())`: number of maximal
whitespace-free runs. -/
def wordCountAux : Bool → List Char → Nat
  | _, [] => 0
  | inWord, c :: rest =>
    if c.isWhitespace then wordCountAux false rest
    else (if inWord then 0 else 1) + wordCountAux true rest

/-- Python `len(s.split())`. -/
def pySplitCount (s : String) : Nat := wordCountAux false s.data

/-- The detector state set up by `OverkillModelDetector.__init__`
(threshold fields; the keyword and model lists are module constants). -/
structure OverkillModelDetector where
  max_prompt_tokens_for_overkill : Nat := 20
  max_prompt_chars : Nat := 150
deriving Repr, DecidableEq, Inhabited

namespace OverkillModelDetector

/-- The `overkill_model_names` list of `__init__`. -/
def overkillModelNames : List String :=
  ["gpt-4", "gpt-4-1106-preview", "gpt-4-turbo", "gpt-4-32k",
   "claude-2", "claude-2.1", "claude-3-opus"]

/-- The `simple_prompt_keywords` list of `__init__`. -/
def simplePromptKeywords : List String :=
  ["summarize", "fix grammar", "translate", "explain"]

/-- Embeds `_is_expensive_model`: substring containment of any expensive
name in the lowercased model. -/
def isExpensiveModel (model : String) : Bool :=
  overkillModelNames.any fun e => isSubstr e (strLower model)

/-- Embeds `_span_succeeded`: completion tokens positive, or a truthy
`completion`/`output` field, or — notably — merely the absence of an
`error`/`failed` indication. -/
def spanSucceeded (r : CallRecord) : Bool :=
  if 0 < r.usage_completion_tokens.getD 0 then true
  else if truthyStr r.completion || truthyStr r.output then true
  else if !truthyStr r.error && !(r.failed.getD false) then true
  else false

/-- Embeds `_estimate_tokens`: `max(1, int(len(text.split()) * 0.75))` for
truthy text, else 0 (`0.75` is exactly `3/4`, so `int` truncation is
integer division). -/
def estimateTokens (text : String) : Nat :=
  if text = "" then 0
  else max 1 (3 * pySplitCount text / 4)

/-- Embeds `_check_simple_task_heuristics`: returns the reason string of
the first matching heuristic, or `none`. -/
def checkSimpleTaskHeuristics (det : OverkillModelDetector)
    (prompt : String) : Option String :=
  let pl := strStrip (strLower prompt)
  match simplePromptKeywords.find? (fun kw => strStartsWith pl kw) with
  | some kw => some ("prompt starts with '" ++ kw ++ "'")
  | none =>
    if prompt.length < det.max_prompt_chars then
      some ("prompt too short (" ++ toString prompt.length ++ " chars)")
    else if strStartsWith pl "what is" || strStartsWith pl "what are" then
      some "simple question"
    else if strStartsWith pl "how to" then some "simple how-to"
    else if strStartsWith pl "define" || strStartsWith pl "definition" then
      some "simple definition"
    else if strStartsWith pl "list" || strStartsWith pl "show me" then
      some "simple listing"
    else none

/-- Embeds `_has_complex_format`: JSON-like structure markers, more than
three newlines, or code-like content. -/
def hasComplexFormat (prompt : String) : Bool :=
  isSubstr "\x7b\"task\":" prompt || isSubstr "\"context\":" prompt ||
    isSubstr "\"instructions\":" prompt ||
  3 < prompt.data.count '\n' ||
  isSubstr "```" prompt || isSubstr "def " prompt || isSubstr "class " prompt ||
    isSubstr "import " prompt || isSubstr "function" prompt

/-- Embeds `_calculate_estimated_cost`: embedded `cost` wins; else the
pricing row for the (un-lowercased) model over the `usage` token counts;
else a hard-coded fallback estimate for gpt-4/claude-2 models. -/
def calculateEstimatedCost (r : CallRecord) (mp : Pricing) : ℚ :=
  match r.cost with
  | some c => c
  | none =>
    let fallback :=
      let model := strLower (r.model.getD "")
      let it : ℚ := (r.usage_prompt_tokens.getD 0 : Int)
      let ot : ℚ := (r.usage_completion_tokens.getD 0 : Int)
      if isSubstr "gpt-4" model then (it * (3/100) + ot * (6/100)) / 1000
      else if isSubstr "claude-2" model then (it * (8/1000) + ot * (24/1000)) / 1000
      else 0
    if !mp.isEmpty then
      match mp.lookup (r.model.getD "") with
      | some row =>
          ((r.usage_prompt_tokens.getD 0 : ℚ) / 1000) * row.input_cost_per_1k +
          ((r.usage_completion_tokens.getD 0 : ℚ) / 1000) * row.output_cost_per_1k
      | none => fallback
    else fallback

/-- Embeds `_check_overkill_pattern`: the checklist chain ending in the
complex-format suppression, producing the detection dict (which carries no
`records` key, modelled as `records = []`). -/
def checkOverkillPattern (det : OverkillModelDetector) (tid : String)
    (r : CallRecord) (mp : Pricing) : Option Detection :=
  let model := strLower (r.model.getD "")
  if !isExpensiveModel model then none
  else if !spanSucceeded r then none
  else
    let prompt := r.prompt.getD ""
    let promptTokens := estimateTokens prompt
    if det.max_prompt_tokens_for_overkill < promptTokens then none
    else
      match det.checkSimpleTaskHeuristics prompt with
      | none => none
      | some simpleReason =>
        if hasComplexFormat prompt then none
        else
          let estimatedCost := calculateEstimatedCost r mp
          some
            { dtype := "overkill_model"
              trace_id := tid
              severity := "medium"
              model := some model
              prompt_tokens := some promptTokens
              prompt_length := some (prompt.length : Int)
              reason := some simpleReason
              estimated_cost_usd := some estimatedCost
              overkill_detected := some true
              description := "Overkill: " ++ model ++
                " used for simple task (" ++ simpleReason ++ ")"
              waste_cost := some (estimatedCost * (7/10))
              sample_prompt := some
                (if 100 < prompt.length then prompt.take 100 ++ "..." else prompt)
              records := [] }

/-- Embeds `OverkillModelDetector.detect`: one check per record of every
trace; total, never raises. -/
def detect (det : OverkillModelDetector) (traces : Traces) (mp : Pricing) :
    List Detection :=
  traces.foldl (fun acc p =>
    acc ++ p.2.filterMap fun r => det.checkOverkillPattern p.1 r mp) []

end OverkillModelDetector

/-! ## Expensive-model-short detectors
(`src/crashlens/detectors/short_model_detector.py` and
`src/crashlens/detectors/gpt4_short.py`).  Both are total. -/

/-- The `expensive_models` map shared verbatim by both detectors. -/
def expensiveModels : List (String × String) :=
  [("gpt-4", "gpt-3.5-turbo"),
   ("gpt-4-32k", "gpt-3.5-turbo-16k"),
   ("gpt-4-turbo", "gpt-3.5-turbo"),
   ("claude-3-opus", "claude-3-sonnet"),
   ("claude-3-sonnet", "claude-3-haiku"),
   ("claude-2.1", "claude-3-haiku"),
   ("claude-2.0", "claude-3-haiku")]

/-- The detector state set up by `ShortModelDetector.__init__`. -/
structure ShortModelDetector where
  min_tokens_for_gpt4 : Nat := 100
  gpt4_cost_multiplier : ℚ := 20
deriving Repr, DecidableEq, Inhabited

namespace ShortModelDetector

/-- Builds the detection dict of `ShortModelDetector.detect` for one
qualifying record, with savings clamped by `max(0.0, ...)`. -/
def mkDetection (tid : String) (r : CallRecord) (model suggested : String)
    (promptTokens : Int) (mp : Pricing) : Detection :=
  let prompt := r.prompt.getD ""
  let currentCost := calculateRecordCost r mp
  let cheaperCost := calculateCostWithModel r suggested mp
  let potentialSavings := max 0 (currentCost - cheaperCost)
  { dtype := "expensive_model_short"
    trace_id := tid
    severity := "medium"
    description := strUpper model ++ " used for short prompt (" ++
      toString promptTokens ++ " tokens)"
    waste_tokens := some (r.completion_tokens.getD 0)
    waste_cost := some potentialSavings
    prompt_length := some promptTokens
    model_used := some model
    suggested_model := some suggested
    sample_prompt := some
      (if 100 < prompt.length then prompt.take 100 ++ "..." else prompt)
    records := [r] }

/-- The per-record body of `ShortModelDetector.detect`. -/
def checkRecord (det : ShortModelDetector) (tid : String) (r : CallRecord)
    (mp : Pricing) : Option Detection :=
  let model := strLower (r.model.getD "")
  let prompt := r.prompt.getD ""
  match expensiveModels.lookup model with
  | none => none
  | some suggested =>
    let promptTokens := r.prompt_tokens.getD (pySplitCount prompt : Int)
    if promptTokens < (det.min_tokens_for_gpt4 : Int) then
      some (mkDetection tid r model suggested promptTokens mp)
    else none

/-- Embeds `ShortModelDetector.detect(traces, model_pricing)`. -/
def detect (det : ShortModelDetector) (traces : Traces) (mp : Pricing) :
    List Detection :=
  traces.foldl (fun acc p =>
    acc ++ p.2.filterMap fun r => det.checkRecord p.1 r mp) []

end ShortModelDetector

/-- The detector state set up by `GPT4ShortDetector.__init__`. -/
structure GPT4ShortDetector where
  min_tokens_for_gpt4 : Nat := 100
  gpt4_cost_multiplier : ℚ := 20
deriving Repr, DecidableEq, Inhabited

namespace GPT4ShortDetector

/-- The per-record body of `GPT4ShortDetector.detect`: savings are
`current_cost - current_cost / gpt4_cost_multiplier`, with no clamp. -/
def checkRecord (det : GPT4ShortDetector) (tid : String) (r : CallRecord) :
    Option Detection :=
  let model := strLower (r.model.getD "")
  let prompt := r.prompt.getD ""
  match expensiveModels.lookup model with
  | none => none
  | some suggested =>
    let promptTokens := pySplitCount prompt
    if promptTokens < det.min_tokens_for_gpt4 then
      let currentCost := r.cost.getD 0
      let estimatedCheaperCost := currentCost / det.gpt4_cost_multiplier
      let potentialSavings := currentCost - estimatedCheaperCost
      some
        { dtype := "expensive_model_short"
          trace_id := tid
          severity := "medium"
          description := strUpper model ++ " used for short prompt (" ++
            toString promptTokens ++ " tokens)"
          waste_tokens := some (r.completion_tokens.getD 0)
          waste_cost := some potentialSavings
          prompt_length := some (promptTokens : Int)
          model_used := some model
          suggested_model := some suggested
          sample_prompt := some
            (if 100 < prompt.length then prompt.take 100 ++ "..." else prompt)
          records := [r] }
    else none

/-- Embeds `GPT4ShortDetector.detect(traces)`. -/
def detect (det : GPT4ShortDetector) (traces : Traces) : List Detection :=
  traces.foldl (fun acc p =>
    acc ++ p.2.filterMap fun r => det.checkRecord p.1 r) []

end GPT4ShortDetector

/-! ## Components of this repository missing from `src/`

`src/crashlens/__main__.py` imports `FallbackFailureDetector` from
`crashlens.detectors.fallback_failure`, and instantiates `RetryLoopDetector`
with a `max_retry_interval_minutes` argument and `FallbackStormDetector`
with `min_calls`/`max_trace_window_minutes` arguments — detector revisions
whose sources are not in `src/`.  These are modelled from the spec below. -/

/-- Boolean `≤` on `Int` for the explicit-comparison sort. -/
def intLe (a b : Int) : Bool := a ≤ b

/-- Modelled from the spec: the derived `succeeded` boolean of the data
model (§3) — completion tokens positive or a non-empty completion/output
field, and no error flag set. -/
def succeededSpec (r : CallRecord) : Bool :=
  (0 < r.completion_tokens.getD 0 || truthyStr r.completion || truthyStr r.output) &&
    !truthyStr r.error && !(r.failed.getD false)

/-- Modelled from the spec: the model-tier ordering the fallback-failure
detector uses to decide that the second call is on a strictly more
expensive tier (§4.4, with the cheap→expensive chains of §4.5). -/
def modelTier (m : String) : Nat :=
  (([("gpt-3.5-turbo", 1), ("gpt-3.5-turbo-16k", 1), ("claude-3-haiku", 1),
     ("claude-instant", 1),
     ("gpt-4", 2), ("gpt-4-turbo", 2), ("claude-3-sonnet", 2), ("claude-2", 2),
     ("gpt-4-32k", 3), ("claude-3-opus", 3)] :
    List (String × Nat)).lookup m).getD 0

/-- Modelled from the spec: keep the records with a parsable `start_time`
(unparsable ones are dropped for time-sensitive detectors, §3/§7), paired
with their timestamps and sorted ascending. -/
def timedSorted (records : List CallRecord) : List (Int × CallRecord) :=
  sortByKey intLe Prod.fst
    (records.filterMap fun r => (parseStart r).toOption.map fun t => (t, r))

/-- Modelled from the spec: the fallback-failure detector configuration
(`time_window_seconds`, default 300), `src/crashlens/detectors/fallback_failure.py`
being absent from `src/`. -/
structure FallbackFailureDetector where
  time_window : Int := 300000000
deriving Repr, DecidableEq, Inhabited

namespace FallbackFailureDetector

/-- Modelled from the spec: the detection for one cheap-then-expensive
pair (§4.4): primary/fallback models, time between the calls, and
`waste_cost` = cost of the discarded primary call. -/
def mkDetection (tid : String) (t1 : Int) (r1 : CallRecord) (t2 : Int)
    (r2 : CallRecord) (mp : Pricing) : Detection :=
  { dtype := "fallback_failure"
    trace_id := tid
    severity := "medium"
    description := "Fallback failure: " ++ r1.model.getD "" ++
      " succeeded but was followed by " ++ r2.model.getD ""
    primary_model := some (r1.model.getD "")
    fallback_model := some (r2.model.getD "")
    time_between_calls := some (t2 - t1)
    waste_cost := some (calculateRecordCost r1 mp)
    records := [r1, r2] }

/-- Modelled from the spec: walk consecutive time-ordered pairs; a pair is
flagged when the second call is on a strictly more expensive tier, the
prompts match exactly (and are non-empty), the gap is within the window,
and the first call succeeded (§4.4). -/
def pairsAux (det : FallbackFailureDetector) (tid : String) (mp : Pricing)
    (prev : Int × CallRecord) : List (Int × CallRecord) → List Detection
  | [] => []
  | p :: rest =>
    (if modelTier (prev.2.model.getD "") < modelTier (p.2.model.getD "") &&
        prev.2.prompt.getD "" ≠ "" && prev.2.prompt.getD "" = p.2.prompt.getD "" &&
        p.1 - prev.1 ≤ det.time_window && succeededSpec prev.2 then
      [mkDetection tid prev.1 prev.2 p.1 p.2 mp]
    else []) ++ pairsAux det tid mp p rest

/-- Modelled from the spec: `FallbackFailureDetector.detect` over a trace
map; total (records with bad timestamps are skipped, §7). -/
def detect (det : FallbackFailureDetector) (traces : Traces) (mp : Pricing) :
    List Detection :=
  traces.foldl (fun acc p =>
    acc ++ (match timedSorted p.2 with
            | [] => []
            | q :: rest => pairsAux det p.1 mp q rest)) []

end FallbackFailureDetector

/-- Modelled from the spec: the retry-loop detector revision instantiated
by `__main__.py` with `max_retries`, `time_window_minutes` (cumulative
window) and `max_retry_interval_minutes` (per-step gap cap), §4.2; its
source is absent from `src/`.  Windows in microseconds. -/
structure RetryLoopVariant where
  max_retries : Int := 1
  time_window : Int := 300000000
  max_retry_interval : Int := 120000000
deriving Repr, DecidableEq, Inhabited

namespace RetryLoopVariant

/-- Modelled from the spec: baseline prompt similarity is exact string
equality of the (non-empty) prompts (§4.2). -/
def similarPrompts (a b : CallRecord) : Bool :=
  a.prompt.getD "" ≠ "" && a.prompt.getD "" = b.prompt.getD ""

/-- Modelled from the spec: grouping walk — a record joins the current
group when it uses the same model as the previous one (only same-model
runs count: a model change breaks the run, §4.2, the behavior the repo's
`test_checklist_compliance.py` requires of this revision), its prompt
matches the previous one, the per-step gap is within
`max_retry_interval`, and the span from the group start is within the
cumulative `time_window` (§4.2). -/
def groupsAux (det : RetryLoopVariant) (gStart : Int) (prev : Int × CallRecord)
    (cur : List CallRecord) (acc : List (List CallRecord)) :
    List (Int × CallRecord) → List (List CallRecord)
  | [] => acc ++ [cur]
  | (t, r) :: rest =>
    if r.model.getD "" = prev.2.model.getD "" && similarPrompts prev.2 r &&
        t - prev.1 ≤ det.max_retry_interval &&
        t - gStart ≤ det.time_window then
      groupsAux det gStart (t, r) (cur ++ [r]) acc rest
    else
      groupsAux det t (t, r) [r] (acc ++ [cur]) rest

/-- Modelled from the spec: detection fields for one group exceeding
`max_retries` — `retry_count` is the group size and the waste sums skip
the necessary first call (§4.2). -/
def mkDetection (tid : String) (g : List CallRecord) (mp : Pricing) : Detection :=
  let tail := g.drop 1
  { dtype := "retry_loop"
    trace_id := tid
    severity := if 5 < g.length then "high" else "medium"
    description := "Retry loop detected with " ++ toString g.length ++
      " similar calls for the same trace."
    retry_count := some g.length
    waste_tokens := some (tail.map fun r => r.completion_tokens.getD 0).sum
    waste_cost := some (tail.map fun r => calculateRecordCost r mp).sum
    detection_method := some "exact_match"
    records := g }

/-- Modelled from the spec: the variant `detect`; total (bad timestamps
skipped), flagging every group strictly larger than `max_retries`. -/
def detect (det : RetryLoopVariant) (traces : Traces) (mp : Pricing) :
    List Detection :=
  traces.foldl (fun acc p =>
    let groups := match timedSorted p.2 with
      | [] => []
      | (t, r) :: rest => groupsAux det t (t, r) [r] [] rest
    acc ++ groups.filterMap fun g =>
      if det.max_retries < (g.length : Int) then some (mkDetection p.1 g mp)
      else none) []

end RetryLoopVariant

/-- Modelled from the spec: the fallback-storm detector revision
instantiated by `__main__.py` with `min_calls` and
`max_trace_window_minutes`; its source is absent from `src/`.  A run
qualifies when calls ≥ `min_calls`, distinct models ≥ `min_models` and the
run's span is within the window (§4.3). -/
structure StormVariant where
  min_calls : Nat := 3
  min_models : Nat := 2
  time_window : Int := 600000000
deriving Repr, DecidableEq, Inhabited

namespace StormVariant

/-- Modelled from the spec: maximal-run construction — consecutive records
with different models and similar prompts extend the run (§4.3, reusing
the storm similarity heuristic). -/
def runsAux (prev : Int × CallRecord) (cur : List (Int × CallRecord))
    (acc : List (List (Int × CallRecord))) :
    List (Int × CallRecord) → List (List (Int × CallRecord))
  | [] => acc ++ [cur]
  | (t, r) :: rest =>
    if r.model.getD "" ≠ prev.2.model.getD "" &&
        FallbackStormDetector.isSimilarPrompt r prev.2 then
      runsAux (t, r) (cur ++ [(t, r)]) acc rest
    else
      runsAux (t, r) [(t, r)] (acc ++ [cur]) rest

/-- Modelled from the spec: whether a run qualifies as a storm (§4.3). -/
def qualifies (det : StormVariant) (run : List (Int × CallRecord)) : Bool :=
  det.min_calls ≤ run.length &&
  det.min_models ≤ (uniqueOrdered (run.map fun q => q.2.model.getD "")).length &&
  (match run, run.getLast? with
   | q0 :: _, some qn => qn.1 - q0.1 ≤ det.time_window
   | _, _ => false)

/-- Modelled from the spec: a storm detection for one qualifying run;
`waste_cost` sums the cost of the run's non-essential calls, i.e. all but
the necessary first call (§4.3). -/
def mkDetection (tid : String) (run : List (Int × CallRecord)) : Detection :=
  let g := run.map Prod.snd
  { dtype := "fallback_storm"
    trace_id := tid
    severity := "medium"
    description := "Fallback storm detected: " ++ toString g.length ++ " calls"
    fallback_count := some g.length
    models_sequence := some (uniqueOrdered (g.map fun r => r.model.getD ""))
    waste_cost := some ((g.drop 1).map fun r => r.cost.getD 0).sum
    records := g }

/-- Modelled from the spec: the variant `detect`; total. -/
def detect (det : StormVariant) (traces : Traces) : List Detection :=
  traces.foldl (fun acc p =>
    let runs := match timedSorted p.2 with
      | [] => []
      | q :: rest => runsAux q [q] [] rest
    acc ++ (runs.filter (det.qualifies)).map (mkDetection p.1)) []

end StormVariant

/-! ## The prioritized-detection pipeline (`src/crashlens/__main__.py`) -/

/-- Embeds `_create_record_id(record, trace_id)`. -/
def createRecordId (r : CallRecord) (tid : String) : String :=
  tid ++ "_" ++ r.startTime.getD "" ++ "_" ++ (r.prompt.getD "").take 50

/-- Embeds `_filter_excluded_records(traces, excluded_records)`: drop
records whose id is excluded, and traces left with no records. -/
def filterExcludedRecords (traces : Traces) (excluded : List String) : Traces :=
  traces.filterMap fun p =>
    let filtered := p.2.filter fun r => !excluded.contains (createRecordId r p.1)
    if filtered.isEmpty then none else some (p.1, filtered)

/-- The record ids claimed by a list of detections (the inner loop of
`_run_prioritized_detection` over `detection.get('records', [])`). -/
def claimedIds (ds : List Detection) : List String :=
  (ds.map fun d => d.records.map fun r => createRecordId r d.trace_id).flatten

/-- The `suppression_notes` written for every `RetryLoopDetector`
detection. -/
def annotateRetry (d : Detection) : Detection :=
  { d with suppression_notes := some (SuppressionNotes.mk
      ["OverkillModelDetector", "FallbackFailureDetector"]
      (some "These records were already claimed by a higher-priority RetryLoop detection.")) }

/-- The `suppression_notes` written for every `FallbackFailureDetector`
detection. -/
def annotateFallbackFailure (d : Detection) : Detection :=
  { d with suppression_notes := some (SuppressionNotes.mk
      ["OverkillModelDetector"]
      (some "These records were already claimed by a higher-priority FallbackFailure detection.")) }

/-- The initial `suppression_notes` left on every other detection. -/
def annotatePlain (d : Detection) : Detection :=
  { d with suppression_notes := some (SuppressionNotes.mk [] none) }

/-- Embeds `_run_prioritized_detection(traces, pricing_config)`: the four
detectors run in the fixed order RetryLoop, FallbackFailure, Overkill,
FallbackStorm; before each detector the traces are filtered by the record
ids claimed so far; every detection is annotated and all detections are
concatenated into one output list.  The two detector revisions absent from
`src/` are the spec-modelled variants above. -/
def runPrioritizedDetection (rv : RetryLoopVariant) (ff : FallbackFailureDetector)
    (ov : OverkillModelDetector) (sv : StormVariant)
    (traces : Traces) (models : Pricing) : List Detection :=
  let d1 := (rv.detect (filterExcludedRecords traces []) models).map annotateRetry
  let ex1 := claimedIds d1
  let d2 := (ff.detect (filterExcludedRecords traces ex1) models).map
    annotateFallbackFailure
  let ex2 := ex1 ++ claimedIds d2
  let d3 := (ov.detect (filterExcludedRecords traces ex2) models).map annotatePlain
  let ex3 := ex2 ++ claimedIds d3
  let d4 := (sv.detect (filterExcludedRecords traces ex3)).map annotatePlain
  d1 ++ d2 ++ d3 ++ d4

/-- The pipeline at the thresholds `_run_prioritized_detection` reads from
an absent `thresholds` config section (its stated defaults). -/
def runPrioritizedDetectionDefault (traces : Traces) (models : Pricing) :
    List Detection :=
  runPrioritizedDetection {} {} {} {} traces models

/-! ## Helper lemmas -/

/-- Sorting a list whose keys are already pairwise ordered is the
identity. -/
theorem sortByKey_chainB {α κ : Type} (le : κ → κ → Bool) (k : α → κ) :
    ∀ l : List α, chainB (fun a b => le (k a) (k b)) l = true →
      sortByKey le k l = l := by
  intro l
  induction l with
  | nil => intro _; rfl
  | cons a t ih =>
    intro h
    cases t with
    | nil => rfl
    | cons b t' =>
      have h' : le (k a) (k b) = true ∧
          chainB (fun a b => le (k a) (k b)) (b :: t') = true := by
        have h0 : (le (k a) (k b) && chainB (fun a b => le (k a) (k b)) (b :: t'))
            = true := h
        simp only [Bool.and_eq_true] at h0
        exact h0
      show insertByKey le k a (sortByKey le k (b :: t')) = a :: b :: t'
      rw [ih h'.2]
      simp [insertByKey, h'.1]

/-- Membership through `insertByKey`. -/
theorem mem_insertByKey {α κ : Type} (le : κ → κ → Bool) (k : α → κ)
    (a x : α) : ∀ l : List α, (x ∈ insertByKey le k a l ↔ x = a ∨ x ∈ l) := by
  intro l
  induction l with
  | nil => simp [insertByKey]
  | cons b bs ih =>
    by_cases hc : le (k a) (k b) = true
    · simp [insertByKey, hc]
    · simp [insertByKey, hc, ih]
      tauto

/-- Membership is preserved by `sortByKey`. -/
theorem mem_sortByKey {α κ : Type} (le : κ → κ → Bool) (k : α → κ)
    (x : α) : ∀ l : List α, (x ∈ sortByKey le k l ↔ x ∈ l) := by
  intro l
  induction l with
  | nil => simp [sortByKey]
  | cons a t ih =>
    show x ∈ insertByKey le k a (sortByKey le k t) ↔ _
    rw [mem_insertByKey, ih]
    simp

/-- Extending a boolean chain by one element linked to the last. -/
theorem chainB_append_singleton {α : Type} (R : α → α → Bool) (c : α) :
    ∀ l : List α, chainB R l = true →
      (∀ x, l.getLast? = some x → R x c = true) →
      chainB R (l ++ [c]) = true := by
  intro l
  induction l with
  | nil => intro _ _; simp [chainB]
  | cons a t ih =>
    intro hl hlast
    cases t with
    | nil =>
      have := hlast a (by simp)
      simp [chainB, this]
    | cons b t' =>
      have h' : R a b = true ∧ chainB R (b :: t') = true := by
        have h0 : (R a b && chainB R (b :: t')) = true := hl
        simp only [Bool.and_eq_true] at h0
        exact h0
      have h3 : chainB R (b :: t' ++ [c]) = true := by
        refine ih h'.2 ?_
        intro x hx
        exact hlast x (by simpa [List.getLast?_cons_cons] using hx)
      show (R a b && chainB R ((b :: t') ++ [c])) = true
      simp only [List.cons_append] at h3 ⊢
      rw [h'.1, h3]
      rfl

/-- Membership in a fold that appends per-element detection lists. -/
theorem mem_foldl_append {α β : Type} (f : β → List α) (x : α) :
    ∀ (l : List β) (init : List α),
      (x ∈ l.foldl (fun acc p => acc ++ f p) init ↔
        x ∈ init ∨ ∃ p ∈ l, x ∈ f p) := by
  intro l
  induction l with
  | nil => intro init; simp
  | cons b t ih =>
    intro init
    show x ∈ t.foldl _ (init ++ f b) ↔ _
    rw [ih]
    simp [List.mem_append]
    tauto

/-- Walking a fully linked tail (every consecutive pair similar and within
the window, all timestamps parsing) produces a single extended group. -/
theorem groupsAux_linked (det : RetryLoopDetector) (tOf : CallRecord → Int) :
    ∀ (rest : List CallRecord) (prev : CallRecord) (cur : List CallRecord)
      (acc : List (List CallRecord)),
      parseStart prev = .ok (tOf prev) →
      (∀ r ∈ rest, parseStart r = .ok (tOf r)) →
      chainB (fun a b => RetryLoopDetector.areSimilar a b &&
        decide (tOf b - tOf a ≤ det.time_window)) (prev :: rest) = true →
      RetryLoopDetector.groupsAux det prev cur acc rest =
        .ok (acc ++ [cur ++ rest]) := by
  intro rest
  induction rest with
  | nil =>
    intro prev cur acc _ _ _
    simp [RetryLoopDetector.groupsAux]
  | cons c rest ih =>
    intro prev cur acc hp hrest hchain
    have hc : parseStart c = .ok (tOf c) := hrest c (by simp)
    have hrest' : ∀ r ∈ rest, parseStart r = .ok (tOf r) := fun r hr =>
      hrest r (by simp [hr])
    have hhead : (RetryLoopDetector.areSimilar prev c &&
        decide (tOf c - tOf prev ≤ det.time_window)) = true ∧
        chainB (fun a b => RetryLoopDetector.areSimilar a b &&
          decide (tOf b - tOf a ≤ det.time_window)) (c :: rest) = true := by
      have h0 : ((RetryLoopDetector.areSimilar prev c &&
          decide (tOf c - tOf prev ≤ det.time_window)) &&
          chainB (fun a b => RetryLoopDetector.areSimilar a b &&
            decide (tOf b - tOf a ≤ det.time_window)) (c :: rest)) = true := hchain
      simp only [Bool.and_eq_true] at h0
      exact ⟨by simp only [Bool.and_eq_true]; exact h0.1, h0.2⟩
    show RetryLoopDetector.groupsAux det prev cur acc (c :: rest) = _
    rw [RetryLoopDetector.groupsAux, hp, hc]
    simp only [hhead.1, if_pos]
    rw [ih c (cur ++ [c]) acc hc hrest' hhead.2]
    simp

/-- A trace whose records all carry sorted, parsable timestamps and form
one linked run yields a single retry group: the whole trace. -/
theorem findRetryGroups_single (det : RetryLoopDetector)
    (tOf : CallRecord → Int) (rs : List CallRecord)
    (h1 : ∀ r ∈ rs, r.startTime.isSome = true)
    (h2 : chainB (fun a b => strLe (a.startTime.getD "") (b.startTime.getD "")) rs
      = true)
    (h3 : ∀ r ∈ rs, parseStart r = .ok (tOf r))
    (h4 : chainB (fun a b => RetryLoopDetector.areSimilar a b &&
      decide (tOf b - tOf a ≤ det.time_window)) rs = true)
    (h5 : rs ≠ []) :
    RetryLoopDetector.findRetryGroups det rs = .ok [rs] := by
  cases rs with
  | nil => exact absurd rfl h5
  | cons r0 rest =>
    have hfilter : (r0 :: rest).filter (fun r => r.startTime.isSome) = r0 :: rest :=
      List.filter_eq_self.mpr h1
    have hsort : sortByKey strLe (fun r => r.startTime.getD "")
        ((r0 :: rest).filter (fun r => r.startTime.isSome)) = r0 :: rest := by
      rw [hfilter]; exact sortByKey_chainB _ _ _ h2
    rw [RetryLoopDetector.findRetryGroups, hsort]
    show RetryLoopDetector.groupsAux det r0 [r0] [] rest = _
    rw [groupsAux_linked det tOf rest r0 [r0] [] (h3 r0 (by simp))
      (fun r hr => h3 r (by simp [hr])) h4]
    simp

/-! ## Claim C10 — constructor precondition -/

/-- C10: `RetryLoopDetector.__init__` raises `ValueError` exactly when
`max_retries < 1`; for `max_retries ≥ 1` it constructs the detector with
the given thresholds stored, performing no validation on
`time_window_minutes` or `similarity_threshold`. -/
theorem retry_init_validation (mr twm : Int) (sim : ℚ) :
    (mr < 1 → RetryLoopDetector.init mr twm sim =
      .error "max_retries must be at least 1.") ∧
    (1 ≤ mr → RetryLoopDetector.init mr twm sim =
      .ok ⟨mr, twm * 60000000, sim⟩) := by
  constructor
  · intro h
    simp [RetryLoopDetector.init, h]
  · intro h
    rw [RetryLoopDetector.init, if_neg (by omega)]

/-- C10 witness: `max_retries = 0` is rejected; `max_retries = 3` is
accepted even with a negative time window and out-of-range similarity. -/
theorem retry_init_validation_witness :
    RetryLoopDetector.init 0 5 (9/10) =
      .error "max_retries must be at least 1." ∧
    RetryLoopDetector.init 3 (-7) (5/2) =
      .ok ⟨3, (-7) * 60000000, 5/2⟩ :=
  ⟨(retry_init_validation 0 5 (9/10)).1 (by decide),
   (retry_init_validation 3 (-7) (5/2)).2 (by decide)⟩

/-! ## Claim C5 — `succeeded` semantics -/

/-- C5 counterexample: the claim says a record with zero completion
tokens, no completion/output field and no error flag is NOT succeeded, but
`_span_succeeded` returns `True` for exactly such a record (its final
branch treats the mere absence of an error as success). -/
theorem span_succeeded_empty_record :
    OverkillModelDetector.spanSucceeded
      { completion_tokens := some 0, usage_completion_tokens := some 0 } = true ∧
    ({ completion_tokens := some 0, usage_completion_tokens := some 0 } :
      CallRecord).output = none ∧
    ({ completion_tokens := some 0, usage_completion_tokens := some 0 } :
      CallRecord).completion = none ∧
    ({ completion_tokens := some 0, usage_completion_tokens := some 0 } :
      CallRecord).error = none ∧
    ({ completion_tokens := some 0, usage_completion_tokens := some 0 } :
      CallRecord).failed = none := by
  decide

/-- C5 amended: `_span_succeeded` is the disjunction — positive completion
tokens, OR a non-empty completion/output field, OR simply no
error/failed indication; absence of an error alone suffices. -/
theorem span_succeeded_semantics (r : CallRecord) :
    OverkillModelDetector.spanSucceeded r =
      (0 < r.usage_completion_tokens.getD 0 || truthyStr r.completion ||
        truthyStr r.output ||
        (!truthyStr r.error && !(r.failed.getD false))) := by
  rw [OverkillModelDetector.spanSucceeded]
  by_cases h1 : 0 < r.usage_completion_tokens.getD 0
  · simp [h1]
  · simp only [h1, if_false, decide_eq_true_eq]
    by_cases h2 : truthyStr r.completion || truthyStr r.output = true
    · simp_all
    · simp_all

/-- A boolean chain is preserved by any pointwise-weaker relation (over
the list's members). -/
theorem chainB_mono {α : Type} (R S : α → α → Bool) :
    ∀ l : List α, (∀ a ∈ l, ∀ b ∈ l, R a b = true → S a b = true) →
      chainB R l = true → chainB S l = true := by
  intro l
  induction l with
  | nil => intro _ _; rfl
  | cons a t ih =>
    intro himp hl
    cases t with
    | nil => rfl
    | cons b t' =>
      have h' : R a b = true ∧ chainB R (b :: t') = true := by
        have h0 : (R a b && chainB R (b :: t')) = true := hl
        simp only [Bool.and_eq_true] at h0
        exact h0
      have hS : S a b = true := himp a (by simp) b (by simp) h'.1
      have hrec : chainB S (b :: t') = true :=
        ih (fun x hx y hy => himp x (by simp [hx]) y (by simp [hy])) h'.2
      show (S a b && chainB S (b :: t')) = true
      rw [hS, hrec]
      rfl

/-! ## Claim C1 — retry threshold boundary -/

/-- C1: with `max_retries = N` (constructed through `__init__`), a trace
whose records form a single linked run of `N + 1` same-model, same-prompt
calls with consecutive gaps inside the time window yields exactly one
`retry_loop` detection with `retry_count = N + 1`, while the same run of
only `N` calls yields no detection. -/
theorem retry_threshold_boundary
    (N : ℕ) (hN : 1 ≤ N) (twm : Int) (sim : ℚ) (det : RetryLoopDetector)
    (hdet : RetryLoopDetector.init (N : Int) twm sim = .ok det)
    (tid m p : String) (hp : p ≠ "")
    (rs : List CallRecord) (mp : Pricing) (tOf : CallRecord → Int)
    (hmodel : ∀ r ∈ rs, r.model = some m)
    (hprompt : ∀ r ∈ rs, r.prompt = some p)
    (hstart : ∀ r ∈ rs, r.startTime.isSome = true)
    (hsorted : chainB (fun a b =>
      strLe (a.startTime.getD "") (b.startTime.getD "")) rs = true)
    (hparse : ∀ r ∈ rs, parseStart r = .ok (tOf r))
    (hwin : chainB (fun a b => decide (tOf b - tOf a ≤ det.time_window)) rs
      = true) :
    (rs.length = N + 1 →
      ∃ d, det.detect [(tid, rs)] mp = .ok [d] ∧ d.dtype = "retry_loop" ∧
        d.retry_count = some (N + 1)) ∧
    (rs.length = N → det.detect [(tid, rs)] mp = .ok []) := by
  have hnotlt : ¬((N : Int) < 1) := by omega
  rw [RetryLoopDetector.init, if_neg hnotlt] at hdet
  injection hdet with hdet'
  have hmr : det.max_retries = (N : Int) := by rw [← hdet']
  have hsim : chainB (fun a b => RetryLoopDetector.areSimilar a b &&
      decide (tOf b - tOf a ≤ det.time_window)) rs = true := by
    refine chainB_mono _ _ rs ?_ hwin
    intro a ha b hb hR
    have hsab : RetryLoopDetector.areSimilar a b = true := by
      rw [RetryLoopDetector.areSimilar, hprompt a ha, hprompt b hb]
      simp [hp]
    rw [hsab, hR]
    rfl
  constructor
  · intro hlen
    have hne : rs ≠ [] := by
      intro hcontra; rw [hcontra] at hlen; simp at hlen
    refine ⟨RetryLoopDetector.mkDetection tid rs mp, ?_, rfl, ?_⟩
    · show RetryLoopDetector.detectAux det mp [(tid, rs)] = _
      rw [RetryLoopDetector.detectAux,
        if_neg (by rw [hmr, hlen]; push_cast; omega),
        findRetryGroups_single det tOf rs hstart hsorted hparse hsim hne]
      show Except.ok (([rs].filterMap fun g =>
        if det.max_retries < (g.length : Int) then
          some (RetryLoopDetector.mkDetection tid g mp)
        else none) ++ []) = _
      rw [List.filterMap_cons]
      simp only [if_pos (show det.max_retries < (rs.length : Int) by
        rw [hmr, hlen]; push_cast; omega)]
      simp
    · show some rs.length = some (N + 1)
      rw [hlen]
  · intro hlen
    show RetryLoopDetector.detectAux det mp [(tid, rs)] = _
    rw [RetryLoopDetector.detectAux,
      if_pos (by rw [hmr, hlen])]
    rfl

/-- C1 witness: at `N = 3` with four 30-second-spaced identical calls,
exactly one `retry_loop` detection with `retry_count = 4`; with three such
calls, none. -/
theorem retry_threshold_boundary_witness :
    (∃ d, RetryLoopDetector.detect ⟨3, 300000000, 9/10⟩
      [("t1",
        [{ startTime := some "2024-01-01T10:00:00Z", prompt := some "What is 2+2?",
           model := some "gpt-3.5-turbo" },
         { startTime := some "2024-01-01T10:00:30Z", prompt := some "What is 2+2?",
           model := some "gpt-3.5-turbo" },
         { startTime := some "2024-01-01T10:01:00Z", prompt := some "What is 2+2?",
           model := some "gpt-3.5-turbo" },
         { startTime := some "2024-01-01T10:01:30Z", prompt := some "What is 2+2?",
           model := some "gpt-3.5-turbo" }])] [] = .ok [d] ∧
      d.dtype = "retry_loop" ∧ d.retry_count = some 4) ∧
    RetryLoopDetector.detect ⟨3, 300000000, 9/10⟩
      [("t1",
        [{ startTime := some "2024-01-01T10:00:00Z", prompt := some "What is 2+2?",
           model := some "gpt-3.5-turbo" },
         { startTime := some "2024-01-01T10:00:30Z", prompt := some "What is 2+2?",
           model := some "gpt-3.5-turbo" },
         { startTime := some "2024-01-01T10:01:00Z", prompt := some "What is 2+2?",
           model := some "gpt-3.5-turbo" }])] [] = .ok [] := by
  constructor
  · exact (retry_threshold_boundary 3 (by decide) 5 (9/10) _ rfl
      "t1" "gpt-3.5-turbo" "What is 2+2?" (by decide) _ []
      (fun r => (parseStart r).toOption.getD 0)
      (by decide) (by decide) (by decide) (by decide) (by decide) (by decide)).1
      (by decide)
  · exact (retry_threshold_boundary 3 (by decide) 5 (9/10) _ rfl
      "t1" "gpt-3.5-turbo" "What is 2+2?" (by decide) _ []
      (fun r => (parseStart r).toOption.getD 0)
      (by decide) (by decide) (by decide) (by decide) (by decide) (by decide)).2
      (by decide)

/-- Boolean model inequality between records, as the storm grouping loop
compares them. -/
def modelNeB (a b : CallRecord) : Bool := a.model.getD "" ≠ b.model.getD ""

/-- When every record carries one and the same model, the storm walk never
extends a group beyond the singleton it restarts with, so (with a
threshold of at least 2) it flushes nothing. -/
theorem stormAux_same_model (det : FallbackStormDetector) (M : String)
    (h2 : 2 ≤ det.fallback_threshold) :
    ∀ (rest : List CallRecord) (x : CallRecord) (acc : List (List CallRecord))
      (gs : List (List CallRecord)),
      x.model.getD "" = M → (∀ r ∈ rest, r.model.getD "" = M) →
      FallbackStormDetector.stormAux det [x] acc rest = .ok gs → gs = acc := by
  intro rest
  induction rest with
  | nil =>
    intro x acc gs _ _ h
    rw [FallbackStormDetector.stormAux, if_neg (by simp; omega)] at h
    injection h with h
    exact h.symm
  | cons c rest ih =>
    intro x acc gs hx hrest h
    rw [FallbackStormDetector.stormAux] at h
    simp only [List.getLast?_singleton] at h
    cases hpc : parseStart c with
    | error e => simp only [hpc] at h; exact Except.noConfusion h
    | ok ct =>
      simp only [hpc] at h
      cases hpx : parseStart x with
      | error e => simp only [hpx] at h; exact Except.noConfusion h
      | ok lt =>
        simp only [hpx] at h
        have hcm : c.model.getD "" = M := hrest c (by simp)
        rw [if_neg (by simp [hcm, hx]),
          if_neg (show ¬det.fallback_threshold ≤ ([x] : List CallRecord).length by
            simp; omega)] at h
        exact ih c acc gs hcm (fun r hr => hrest r (by simp [hr])) h

/-- Every group the storm walk flushes has reached the threshold and has
pairwise-distinct consecutive models. -/
theorem stormAux_shape (det : FallbackStormDetector) :
    ∀ (rest cur : List CallRecord) (acc gs : List (List CallRecord)),
      FallbackStormDetector.stormAux det cur acc rest = .ok gs →
      1 ≤ cur.length → chainB modelNeB cur = true →
      (∀ g ∈ acc, det.fallback_threshold ≤ g.length ∧ chainB modelNeB g = true) →
      ∀ g ∈ gs, det.fallback_threshold ≤ g.length ∧ chainB modelNeB g = true := by
  intro rest
  induction rest with
  | nil =>
    intro cur acc gs h _ hchain hacc
    rw [FallbackStormDetector.stormAux] at h
    by_cases hb : det.fallback_threshold ≤ cur.length
    · rw [if_pos hb] at h
      injection h with h
      subst h
      intro g hg
      rcases List.mem_append.mp hg with hg | hg
      · exact hacc g hg
      · simp at hg; subst hg; exact ⟨hb, hchain⟩
    · rw [if_neg hb] at h
      injection h with h
      subst h
      exact hacc
  | cons c rest ih =>
    intro cur acc gs h hlen hchain hacc
    rw [FallbackStormDetector.stormAux] at h
    cases hcur : cur.getLast? with
    | none =>
      rw [List.getLast?_eq_none_iff] at hcur
      rw [hcur] at hlen; simp at hlen
    | some last =>
      simp only [hcur] at h
      cases hpc : parseStart c with
      | error e => simp only [hpc] at h; exact Except.noConfusion h
      | ok ct =>
        simp only [hpc] at h
        cases hpl : parseStart last with
        | error e => simp only [hpl] at h; exact Except.noConfusion h
        | ok lt =>
          simp only [hpl] at h
          by_cases hcond : (intAbs (ct - lt) ≤ det.time_window &&
              (decide ¬(c.model.getD "" = last.model.getD "")) &&
              FallbackStormDetector.isSimilarPrompt c last) = true
          · rw [if_pos (by simpa using hcond)] at h
            refine ih (cur ++ [c]) acc gs h (by simp) ?_ hacc
            refine chainB_append_singleton _ _ _ hchain ?_
            intro x hx
            rw [hcur] at hx
            injection hx with hx
            subst hx
            have hne : ¬(c.model.getD "" = last.model.getD "") := by
              simp only [Bool.and_eq_true, decide_eq_true_eq] at hcond
              exact hcond.1.2
            simp [modelNeB]
            exact fun hEq => hne hEq.symm
          · rw [if_neg (by simpa using hcond)] at h
            refine ih [c] _ gs h (by simp) rfl ?_
            by_cases hb : det.fallback_threshold ≤ cur.length
            · rw [if_pos hb]
              intro g hg
              rcases List.mem_append.mp hg with hg | hg
              · exact hacc g hg
              · simp at hg; subst hg; exact ⟨hb, hchain⟩
            · rw [if_neg hb]
              exact hacc

/-- Every group `_find_fallback_patterns` returns has reached the
threshold and changes model between consecutive records. -/
theorem findFallbackPatterns_shape (det : FallbackStormDetector)
    (records : List CallRecord) (groups : List (List CallRecord))
    (hf : det.findFallbackPatterns records = .ok groups) :
    ∀ g ∈ groups, det.fallback_threshold ≤ g.length ∧
      chainB modelNeB g = true := by
  rw [FallbackStormDetector.findFallbackPatterns] at hf
  by_cases hlen : records.length < 2
  · rw [if_pos hlen] at hf
    injection hf with hf; subst hf; simp
  · rw [if_neg hlen] at hf
    cases hs : sortByKey strLe (fun r => r.startTime.getD "") records with
    | nil =>
      simp only [hs] at hf
      injection hf with hf; subst hf; simp
    | cons r0 rest' =>
      simp only [hs] at hf
      exact stormAux_shape det rest' [r0] [] groups hf (by simp) rfl (by simp)

/-- Every detection the storm detector emits is built from one of its
groups. -/
theorem storm_detect_shape (det : FallbackStormDetector) :
    ∀ (traces : Traces) (l : List Detection),
      det.detect traces = .ok l →
      ∀ d ∈ l, ∃ tid g, d = FallbackStormDetector.mkDetection tid g ∧
        det.fallback_threshold ≤ g.length ∧ chainB modelNeB g = true := by
  intro traces
  induction traces with
  | nil =>
    intro l h d hd
    injection h with h; subst h; simp at hd
  | cons p rest ih =>
    intro l h d hd
    obtain ⟨tid, records⟩ := p
    rw [FallbackStormDetector.detect, FallbackStormDetector.detectAux] at h
    cases hf : det.findFallbackPatterns records with
    | error e => simp only [hf] at h; exact Except.noConfusion h
    | ok groups =>
      simp only [hf] at h
      cases hrest : FallbackStormDetector.detectAux det rest with
      | error e => simp only [hrest] at h; exact Except.noConfusion h
      | ok later =>
        simp only [hrest] at h
        injection h with h
        subst h
        rcases List.mem_append.mp hd with hmem | hmem
        · rcases List.mem_filterMap.mp hmem with ⟨g, hg, hsome⟩
          by_cases hb : det.fallback_threshold ≤ g.length
          · rw [if_pos hb] at hsome
            injection hsome with hsome
            subst hsome
            exact ⟨tid, g, rfl, hb, (findFallbackPatterns_shape det records groups hf g hg).2⟩
          · rw [if_neg hb] at hsome
            exact Option.noConfusion hsome
        · exact ih later hrest d hmem

/-! ## Claim C6 — storm requires model diversity -/

/-- C6: with a threshold of at least 2 (default 3), a trace map whose
traces each use a single model produces no `fallback_storm` detection; and
every emitted storm detection covers at least `fallback_threshold` records
among which at least two distinct models occur. -/
theorem storm_requires_model_diversity (det : FallbackStormDetector)
    (traces : Traces) (l : List Detection)
    (h2 : 2 ≤ det.fallback_threshold)
    (hok : det.detect traces = .ok l) :
    ((∀ p ∈ traces, ∀ r ∈ p.2, ∀ q ∈ p.2,
        r.model.getD "" = q.model.getD "") → l = []) ∧
    (∀ d ∈ l, det.fallback_threshold ≤ d.records.length ∧
      ∃ a ∈ d.records, ∃ b ∈ d.records,
        a.model.getD "" ≠ b.model.getD "") := by
  constructor
  · intro hsame
    induction traces generalizing l with
    | nil =>
      injection hok with h
      exact h.symm
    | cons p rest ih =>
      obtain ⟨tid, records⟩ := p
      rw [FallbackStormDetector.detect, FallbackStormDetector.detectAux] at hok
      cases hf : det.findFallbackPatterns records with
      | error e => simp only [hf] at hok; exact Except.noConfusion hok
      | ok groups =>
        simp only [hf] at hok
        cases hrest : FallbackStormDetector.detectAux det rest with
        | error e => simp only [hrest] at hok; exact Except.noConfusion hok
        | ok later =>
          simp only [hrest] at hok
          injection hok with hok
          have hgroups : groups = [] := by
            rw [FallbackStormDetector.findFallbackPatterns] at hf
            by_cases hlen : records.length < 2
            · rw [if_pos hlen] at hf; injection hf with hf; exact hf.symm
            · rw [if_neg hlen] at hf
              cases hs : sortByKey strLe (fun r => r.startTime.getD "") records with
              | nil =>
                simp only [hs] at hf
                injection hf with hf; exact hf.symm
              | cons r0 rest' =>
                simp only [hs] at hf
                have hmem0 : r0 ∈ records := by
                  have : r0 ∈ sortByKey strLe (fun r => r.startTime.getD "") records := by
                    rw [hs]; simp
                  exact (mem_sortByKey _ _ _ _).mp this
                refine stormAux_same_model det (r0.model.getD "") h2 rest' r0 []
                  groups rfl ?_ hf
                intro r hr
                have hrmem : r ∈ records := by
                  have : r ∈ sortByKey strLe (fun r => r.startTime.getD "") records := by
                    rw [hs]; simp [hr]
                  exact (mem_sortByKey _ _ _ _).mp this
                exact hsame (tid, records) (by simp) r hrmem r0 hmem0
          subst hgroups
          simp only [List.filterMap_nil, List.nil_append] at hok
          subst hok
          exact ih later hrest (fun p hp => hsame p (by simp [hp]))
  · intro d hd
    obtain ⟨tid, g, rfl, hthr, hchain⟩ := storm_detect_shape det traces l hok d hd
    have hrec : (FallbackStormDetector.mkDetection tid g).records = g := rfl
    rw [hrec]
    refine ⟨hthr, ?_⟩
    have hg2 : 2 ≤ g.length := le_trans h2 hthr
    cases g with
    | nil => simp at hg2
    | cons a t =>
      cases t with
      | nil => simp at hg2
      | cons b t' =>
        have hab : modelNeB a b = true := by
          have h0 : (modelNeB a b && chainB modelNeB (b :: t')) = true := hchain
          simp only [Bool.and_eq_true] at h0
          exact h0.1
        exact ⟨a, by simp, b, by simp, by simpa [modelNeB] using hab⟩

/-- The three-call alternating-model trace used by the C6 witness. -/
def stormWitnessTraces : Traces :=
  [("t1", [{ startTime := some "2024-01-01T10:00:00Z", prompt := some "p",
             model := some "gpt-3.5-turbo" },
           { startTime := some "2024-01-01T10:00:30Z", prompt := some "p",
             model := some "gpt-4" },
           { startTime := some "2024-01-01T10:01:00Z", prompt := some "p",
             model := some "claude-2" }])]

/-- The first storm detection on the C6 witness trace. -/
def stormWitnessHead : Detection :=
  ((FallbackStormDetector.detect ⟨3, 600000000⟩ stormWitnessTraces).toOption.getD
    []).headD default

/-- C6 witness: a three-call alternating-model storm is flagged, and the
theorem yields its size and model-diversity guarantees at that input. -/
theorem storm_requires_model_diversity_witness :
    3 ≤ stormWitnessHead.records.length ∧
    ∃ a ∈ stormWitnessHead.records, ∃ b ∈ stormWitnessHead.records,
      a.model.getD "" ≠ b.model.getD "" := by
  have hisok : (FallbackStormDetector.detect ⟨3, 600000000⟩
      stormWitnessTraces).isOk = true := by
    set_option maxRecDepth 10000 in decide
  rw [stormWitnessHead]
  cases hdet : FallbackStormDetector.detect ⟨3, 600000000⟩ stormWitnessTraces with
  | error e => rw [hdet] at hisok; exact Bool.noConfusion hisok
  | ok l =>
    have hlen1 : (FallbackStormDetector.detect ⟨3, 600000000⟩
        stormWitnessTraces).map List.length = .ok 1 := by
      set_option maxRecDepth 10000 in decide
    rw [hdet] at hlen1
    injection hlen1 with hlen1
    have hhead : ((Except.ok l : Except String (List Detection)).toOption.getD
        []).headD default ∈ l := by
      cases l with
      | nil => exact Nat.noConfusion hlen1
      | cons a t => simp [Except.toOption]
    have hmain := storm_requires_model_diversity ⟨3, 600000000⟩
      stormWitnessTraces l (by decide) hdet
    exact hmain.2 _ hhead

/-- Every detection the retry-loop detector emits is the detection dict
built from one of its groups. -/
theorem retry_detect_shape (det : RetryLoopDetector) (mp : Pricing) :
    ∀ (traces : Traces) (l : List Detection),
      det.detect traces mp = .ok l →
      ∀ d ∈ l, ∃ tid g, d = RetryLoopDetector.mkDetection tid g mp := by
  intro traces
  induction traces with
  | nil =>
    intro l h d hd
    injection h with h; subst h; simp at hd
  | cons p rest ih =>
    intro l h d hd
    obtain ⟨tid, records⟩ := p
    rw [RetryLoopDetector.detect, RetryLoopDetector.detectAux] at h
    by_cases hskip : (records.length : Int) ≤ det.max_retries
    · rw [if_pos hskip] at h
      exact ih l h d hd
    · rw [if_neg hskip] at h
      cases hf : det.findRetryGroups records with
      | error e => simp only [hf] at h; exact Except.noConfusion h
      | ok groups =>
        simp only [hf] at h
        cases hrest : RetryLoopDetector.detectAux det mp rest with
        | error e => simp only [hrest] at h; exact Except.noConfusion h
        | ok later =>
          simp only [hrest] at h
          injection h with h
          subst h
          rcases List.mem_append.mp hd with hmem | hmem
          · rcases List.mem_filterMap.mp hmem with ⟨g, _, hsome⟩
            by_cases hb : det.max_retries < (g.length : Int)
            · rw [if_pos hb] at hsome
              injection hsome with hsome
              exact ⟨tid, g, hsome.symm⟩
            · rw [if_neg hb] at hsome
              exact Option.noConfusion hsome
          · exact ih later hrest d hmem

/-! ## Claim C8 — retry waste accounting -/

/-- C8 counterexample: for two identical calls with 10 completion tokens
each (`max_retries = 1`), the detection's `waste_tokens` is 20 — the sum
over ALL records of the group — while the sum excluding the first call is
only 10; the claim's exclusion of the first call does not hold. -/
theorem retry_waste_counterexample :
    ((RetryLoopDetector.detect ⟨1, 300000000, 9/10⟩
      [("t1", [{ startTime := some "2024-01-01T10:00:00Z", prompt := some "p",
                 model := some "gpt-4", completion_tokens := some 10 },
               { startTime := some "2024-01-01T10:00:30Z", prompt := some "p",
                 model := some "gpt-4", completion_tokens := some 10 }])] []).map
      (List.map fun d => (d.waste_tokens, d.retry_count,
        ((d.records.drop 1).map fun r => r.completion_tokens.getD 0).sum)))
      = .ok [(some 20, some 2, 10)] ∧ some (20 : Int) ≠ some (10 : Int) := by
  constructor
  · decide
  · decide

/-- C8 amended: for every `retry_loop` detection, `waste_tokens` and
`waste_cost` are the sums of completion tokens and per-record cost over
ALL records of the group, the first call included. -/
theorem retry_waste_over_all_records (det : RetryLoopDetector) (mp : Pricing)
    (traces : Traces) (l : List Detection)
    (hok : det.detect traces mp = .ok l) :
    ∀ d ∈ l,
      d.waste_tokens =
        some ((d.records.map fun r => r.completion_tokens.getD 0).sum) ∧
      d.waste_cost =
        some ((d.records.map fun r => calculateRecordCost r mp).sum) := by
  intro d hd
  obtain ⟨tid, g, rfl⟩ := retry_detect_shape det mp traces l hok d hd
  exact ⟨rfl, rfl⟩

/-- The two-call retry trace used by the C8 witness. -/
def retryWasteWitnessTraces : Traces :=
  [("t1", [{ startTime := some "2024-01-01T10:00:00Z", prompt := some "p",
             model := some "gpt-4", completion_tokens := some 10 },
           { startTime := some "2024-01-01T10:00:30Z", prompt := some "p",
             model := some "gpt-4", completion_tokens := some 10 }])]

/-- The first retry detection on the C8 witness trace. -/
def retryWasteWitnessHead : Detection :=
  ((RetryLoopDetector.detect ⟨1, 300000000, 9/10⟩ retryWasteWitnessTraces
    []).toOption.getD []).headD default

/-- C8 witness: the amended sums at the two-call trace of the
counterexample. -/
theorem retry_waste_over_all_records_witness :
    retryWasteWitnessHead.waste_tokens =
      some ((retryWasteWitnessHead.records.map fun r =>
        r.completion_tokens.getD 0).sum) ∧
    retryWasteWitnessHead.waste_cost =
      some ((retryWasteWitnessHead.records.map fun r =>
        calculateRecordCost r []).sum) := by
  have hisok : (RetryLoopDetector.detect ⟨1, 300000000, 9/10⟩
      retryWasteWitnessTraces []).isOk = true := by decide
  rw [retryWasteWitnessHead]
  cases hdet : RetryLoopDetector.detect ⟨1, 300000000, 9/10⟩
      retryWasteWitnessTraces [] with
  | error e => rw [hdet] at hisok; exact Bool.noConfusion hisok
  | ok l =>
    have hlen1 : (RetryLoopDetector.detect ⟨1, 300000000, 9/10⟩
        retryWasteWitnessTraces []).map List.length = .ok 1 := by decide
    rw [hdet] at hlen1
    injection hlen1 with hlen1
    have hhead : ((Except.ok l : Except String (List Detection)).toOption.getD
        []).headD default ∈ l := by
      cases l with
      | nil => exact Nat.noConfusion hlen1
      | cons a t => simp [Except.toOption]
    exact retry_waste_over_all_records ⟨1, 300000000, 9/10⟩ []
      retryWasteWitnessTraces l hdet _ hhead

/-! ## Claim C2 — model change and retry grouping -/

/-- C2, code behavior at the failing input: the grouping of
`_find_retry_groups` never inspects `model`, so the
`[gpt-3.5-turbo, gpt-4, gpt-4, gpt-4]` trace with identical prompts and
30-second gaps IS flagged as one `retry_loop` spanning all four records —
contradicting the specification and the repository's own
`test_model_consistency.py`, which requires that trace not to be flagged. -/
theorem retry_model_change_code_behavior :
    ((RetryLoopDetector.detect ⟨3, 300000000, 9/10⟩
      [("trace_model_change",
        [{ startTime := some "2024-01-01T10:00:00Z",
           prompt := some "Complex analysis task", model := some "gpt-3.5-turbo" },
         { startTime := some "2024-01-01T10:00:30Z",
           prompt := some "Complex analysis task", model := some "gpt-4" },
         { startTime := some "2024-01-01T10:01:00Z",
           prompt := some "Complex analysis task", model := some "gpt-4" },
         { startTime := some "2024-01-01T10:01:30Z",
           prompt := some "Complex analysis task", model := some "gpt-4" }])] []).map
      (List.map fun d => (d.dtype, d.retry_count, d.records.length,
        d.records.map fun r => r.model.getD "")))
      = .ok [("retry_loop", some 4, 4,
          ["gpt-3.5-turbo", "gpt-4", "gpt-4", "gpt-4"])] := by
  set_option maxRecDepth 10000 in decide

/-! ## Claim C7 — detector behavior on malformed input -/

/-- C7, code behavior at the failing inputs: the empty trace map does
yield an empty detection list, and a record *missing* `startTime` is
skipped by the retry-loop detector; but a record whose `startTime` does
not parse makes the retry-loop detector raise `ValueError`, and a record
missing `startTime` makes the fallback-storm detector raise `KeyError` —
neither is skipped. -/
theorem detector_timestamp_crash_behavior :
    RetryLoopDetector.detect ⟨1, 300000000, 9/10⟩ [] [] = .ok [] ∧
    FallbackStormDetector.detect ⟨3, 600000000⟩ [] = .ok [] ∧
    ((RetryLoopDetector.detect ⟨1, 300000000, 9/10⟩
      [("t1", [{ prompt := some "p" },
               { startTime := some "2024-01-01T10:00:00Z", prompt := some "p" },
               { startTime := some "2024-01-01T10:00:30Z", prompt := some "p" }])]
      []).map (List.map fun d => (d.dtype, d.records.length))
      = .ok [("retry_loop", 2)]) ∧
    RetryLoopDetector.detect ⟨1, 300000000, 9/10⟩
      [("t1", [{ startTime := some "2024-01-01T10:00:00Z", prompt := some "p" },
               { startTime := some "oops", prompt := some "p" }])] []
      = .error "ValueError: invalid isoformat string" ∧
    FallbackStormDetector.detect ⟨3, 600000000⟩
      [("t1", [{ prompt := some "p" },
               { startTime := some "2024-01-01T10:00:00Z", prompt := some "p" }])]
      = .error "KeyError: startTime" := by
  refine ⟨rfl, rfl, by decide, by decide, by decide⟩

/-- Every pair the fallback-failure walk flags has a succeeded first
call. -/
theorem ffPairsAux_mem (ff : FallbackFailureDetector) (tid : String)
    (mp : Pricing) :
    ∀ (rest : List (Int × CallRecord)) (prev : Int × CallRecord)
      (d : Detection),
      d ∈ FallbackFailureDetector.pairsAux ff tid mp prev rest →
      ∃ t1 r1 t2 r2, d = FallbackFailureDetector.mkDetection tid t1 r1 t2 r2 mp ∧
        succeededSpec r1 = true := by
  intro rest
  induction rest with
  | nil => intro prev d hd; simp [FallbackFailureDetector.pairsAux] at hd
  | cons p rest ih =>
    intro prev d hd
    rw [FallbackFailureDetector.pairsAux] at hd
    rcases List.mem_append.mp hd with hmem | hmem
    · by_cases hcond : (modelTier (prev.2.model.getD "") <
          modelTier (p.2.model.getD "") &&
          prev.2.prompt.getD "" ≠ "" &&
          prev.2.prompt.getD "" = p.2.prompt.getD "" &&
          p.1 - prev.1 ≤ ff.time_window && succeededSpec prev.2) = true
      · rw [if_pos hcond] at hmem
        simp at hmem
        subst hmem
        refine ⟨prev.1, prev.2, p.1, p.2, rfl, ?_⟩
        simp only [Bool.and_eq_true] at hcond
        exact hcond.2
      · rw [if_neg hcond] at hmem
        simp at hmem
    · exact ih p d hmem

/-! ## Claim C9 — fallback failure requires success-then-escalate -/

/-- The zero-completion-token cheap call followed by a pricier model on
the same prompt, used for C9. -/
def c9FailTraces : Traces :=
  [("t1", [{ startTime := some "2024-01-01T10:00:00Z", prompt := some "q",
             model := some "gpt-3.5-turbo", completion_tokens := some 0 },
           { startTime := some "2024-01-01T10:00:30Z", prompt := some "q",
             model := some "gpt-4", completion_tokens := some 5 }])]

/-- C9 (spec-modelled detector): every `fallback_failure` detection's
primary call succeeded — in particular it had positive completion tokens
or a non-empty output — and the concrete failed-primary pair of
`c9FailTraces` is never reported. -/
theorem fallback_failure_requires_success (ff : FallbackFailureDetector)
    (traces : Traces) (mp : Pricing) (d : Detection)
    (hd : d ∈ ff.detect traces mp) :
    (∃ r1 r2, d.records = [r1, r2] ∧ succeededSpec r1 = true ∧
      (0 < r1.completion_tokens.getD 0 ∨ truthyStr r1.completion = true ∨
        truthyStr r1.output = true)) ∧
    FallbackFailureDetector.detect {} c9FailTraces [] = [] := by
  refine ⟨?_, by decide⟩
  rw [FallbackFailureDetector.detect] at hd
  rcases (mem_foldl_append _ d traces []).mp hd with hinit | ⟨p, _, hmem⟩
  · simp at hinit
  · rcases hsort : timedSorted p.2 with _ | ⟨q, rest⟩
    · rw [hsort] at hmem; simp at hmem
    · rw [hsort] at hmem
      obtain ⟨t1, r1, t2, r2, rfl, hs⟩ := ffPairsAux_mem ff p.1 mp rest q d hmem
      refine ⟨r1, r2, rfl, hs, ?_⟩
      have hs' := hs
      rw [succeededSpec] at hs'
      simp only [Bool.and_eq_true, Bool.or_eq_true, decide_eq_true_eq] at hs'
      rcases hs'.1.1 with h | h
      · rcases h with h | h
        · exact Or.inl h
        · exact Or.inr (Or.inl h)
      · exact Or.inr (Or.inr h)

/-- The succeeded-primary pair used by the C9 witness. -/
def ffWitnessTraces : Traces :=
  [("t1", [{ startTime := some "2024-01-01T10:00:00Z", prompt := some "q",
             model := some "gpt-3.5-turbo", completion_tokens := some 3 },
           { startTime := some "2024-01-01T10:00:30Z", prompt := some "q",
             model := some "gpt-4", completion_tokens := some 5 }])]

/-- The first fallback-failure detection on the C9 witness trace. -/
def ffWitnessHead : Detection :=
  (FallbackFailureDetector.detect {} ffWitnessTraces []).headD default

/-- C9 witness: the theorem applied to the flagged succeeded-then-escalate
pair. -/
theorem fallback_failure_requires_success_witness :
    (∃ r1 r2, ffWitnessHead.records = [r1, r2] ∧ succeededSpec r1 = true ∧
      (0 < r1.completion_tokens.getD 0 ∨ truthyStr r1.completion = true ∨
        truthyStr r1.output = true)) ∧
    FallbackFailureDetector.detect {} c9FailTraces [] = [] := by
  have hlen1 : (FallbackFailureDetector.detect {} ffWitnessTraces []).length = 1 := by
    decide
  have hhead : ffWitnessHead ∈ FallbackFailureDetector.detect {} ffWitnessTraces [] := by
    rw [ffWitnessHead]
    cases hl : FallbackFailureDetector.detect {} ffWitnessTraces [] with
    | nil => rw [hl] at hlen1; exact Nat.noConfusion hlen1
    | cons a t => simp
  exact fallback_failure_requires_success {} ffWitnessTraces [] ffWitnessHead hhead

/-! ## Claim C4 — savings never negative -/

/-- C4: every detection of the two expensive-model-short detectors
carries `waste_cost = max(0, current_cost - alternate_cost)` — for
`ShortModelDetector` literally by its clamp, for `GPT4ShortDetector`
because `current - current / multiplier` is itself that maximum once the
record's cost is non-negative and the multiplier is at least 1 — and so no
emitted detection has a negative `waste_cost`. -/
theorem savings_never_negative (sdet : ShortModelDetector)
    (gdet : GPT4ShortDetector) (traces : Traces) (mp : Pricing)
    (d : Detection)
    (hmult : 1 ≤ gdet.gpt4_cost_multiplier)
    (hcost : ∀ p ∈ traces, ∀ r ∈ p.2, 0 ≤ r.cost.getD 0)
    (hd : d ∈ sdet.detect traces mp ∨ d ∈ gdet.detect traces) :
    0 ≤ d.waste_cost.getD 0 ∧
    ∃ r sug, d.suggested_model = some sug ∧
      (d.waste_cost =
        some (max 0 (calculateRecordCost r mp - calculateCostWithModel r sug mp)) ∨
       (d.waste_cost =
          some (r.cost.getD 0 - r.cost.getD 0 / gdet.gpt4_cost_multiplier) ∧
        r.cost.getD 0 - r.cost.getD 0 / gdet.gpt4_cost_multiplier =
          max 0 (r.cost.getD 0 - r.cost.getD 0 / gdet.gpt4_cost_multiplier))) := by
  rcases hd with hd | hd
  · rw [ShortModelDetector.detect] at hd
    rcases (mem_foldl_append _ d traces []).mp hd with hinit | ⟨p, _, hmem⟩
    · simp at hinit
    · rcases List.mem_filterMap.mp hmem with ⟨r, _, hsome⟩
      rw [ShortModelDetector.checkRecord] at hsome
      cases hlook : expensiveModels.lookup (strLower (r.model.getD "")) with
      | none => simp only [hlook] at hsome; exact Option.noConfusion hsome
      | some sug =>
        simp only [hlook] at hsome
        by_cases htok : r.prompt_tokens.getD ((pySplitCount (r.prompt.getD "")) : Int) <
            (sdet.min_tokens_for_gpt4 : Int)
        · rw [if_pos htok] at hsome
          injection hsome with hsome
          subst hsome
          refine ⟨?_, r, sug, rfl, Or.inl rfl⟩
          simp only [ShortModelDetector.mkDetection, Option.getD_some]
          exact le_max_left 0 _
        · rw [if_neg htok] at hsome
          exact Option.noConfusion hsome
  · rw [GPT4ShortDetector.detect] at hd
    rcases (mem_foldl_append _ d traces []).mp hd with hinit | ⟨p, hp, hmem⟩
    · simp at hinit
    · rcases List.mem_filterMap.mp hmem with ⟨r, hr, hsome⟩
      rw [GPT4ShortDetector.checkRecord] at hsome
      cases hlook : expensiveModels.lookup (strLower (r.model.getD "")) with
      | none => simp only [hlook] at hsome; exact Option.noConfusion hsome
      | some sug =>
        simp only [hlook] at hsome
        by_cases htok : pySplitCount (r.prompt.getD "") < gdet.min_tokens_for_gpt4
        · rw [if_pos htok] at hsome
          injection hsome with hsome
          subst hsome
          have hc : (0 : ℚ) ≤ r.cost.getD 0 := hcost p hp r hr
          have hnn : 0 ≤ r.cost.getD 0 - r.cost.getD 0 / gdet.gpt4_cost_multiplier :=
            sub_nonneg.mpr (div_le_self hc hmult)
          refine ⟨?_, r, sug, rfl, Or.inr ⟨rfl, (max_eq_right hnn).symm⟩⟩
          simpa using hnn
        · rw [if_neg htok] at hsome
          exact Option.noConfusion hsome

/-- The single short gpt-4 record used by the C4 witness. -/
def c4Traces : Traces := [("t1", [{ model := some "gpt-4", prompt := some "hi" }])]

/-- The first expensive-model-short detection of `ShortModelDetector` on
the C4 witness trace. -/
def c4ShortHead : Detection :=
  (ShortModelDetector.detect {} c4Traces []).headD default

/-- The first expensive-model-short detection of `GPT4ShortDetector` on
the C4 witness trace. -/
def c4GptHead : Detection :=
  (GPT4ShortDetector.detect ⟨100, 1⟩ c4Traces).headD default

/-- C4 witness: both detectors' detections on the concrete short gpt-4
record have non-negative `waste_cost`. -/
theorem savings_never_negative_witness :
    0 ≤ c4ShortHead.waste_cost.getD 0 ∧ 0 ≤ c4GptHead.waste_cost.getD 0 := by
  have hcost : ∀ p ∈ c4Traces, ∀ r ∈ p.2, (0 : ℚ) ≤ r.cost.getD 0 := by
    intro p hp r hr
    simp only [c4Traces, List.mem_singleton] at hp
    subst hp
    simp only [List.mem_singleton] at hr
    subst hr
    simp
  constructor
  · have hlen1 : (ShortModelDetector.detect {} c4Traces []).length = 1 := by decide
    have hhead : c4ShortHead ∈ ShortModelDetector.detect {} c4Traces [] := by
      rw [c4ShortHead]
      cases hl : ShortModelDetector.detect {} c4Traces [] with
      | nil => rw [hl] at hlen1; exact Nat.noConfusion hlen1
      | cons a t => simp
    exact (savings_never_negative {} ⟨100, 1⟩ c4Traces [] c4ShortHead
      (le_refl 1) hcost (Or.inl hhead)).1
  · have hlen1 : (GPT4ShortDetector.detect ⟨100, 1⟩ c4Traces).length = 1 := by decide
    have hhead : c4GptHead ∈ GPT4ShortDetector.detect ⟨100, 1⟩ c4Traces := by
      rw [c4GptHead]
      cases hl : GPT4ShortDetector.detect ⟨100, 1⟩ c4Traces with
      | nil => rw [hl] at hlen1; exact Nat.noConfusion hlen1
      | cons a t => simp
    exact (savings_never_negative {} ⟨100, 1⟩ c4Traces [] c4GptHead
      (le_refl 1) hcost (Or.inr hhead)).1

/-! ## Claim C3 — the prioritized-detection pass -/

/-- Two records of one trace that each trigger the overkill detector but
nothing of higher priority. -/
def pipelineOverkillTraces : Traces :=
  [("t1", [{ startTime := some "2025-01-01T10:00:00Z",
             prompt := some "Translate hello", model := some "gpt-4" },
           { startTime := some "2025-01-01T10:00:30Z",
             prompt := some "Summarize the news", model := some "gpt-4" }])]

/-- Two identical short gpt-4 calls, triggering both the retry-loop and
(absent exclusion) the overkill detector. -/
def pipelineRetryTraces : Traces :=
  [("t1", [{ startTime := some "2025-01-01T10:00:00Z",
             prompt := some "Translate hello", model := some "gpt-4" },
           { startTime := some "2025-01-01T10:00:30Z",
             prompt := some "Translate hello", model := some "gpt-4" }])]

/-- An escalation trace: a gpt-3.5-turbo call followed by two gpt-4
retries of the same prompt — the model change must break the retry run
(§4.2), so only the two gpt-4 calls form the retry group. -/
def pipelineEscalationTraces : Traces :=
  [("t1", [{ startTime := some "2025-01-01T10:00:00Z",
             prompt := some "Translate hello", model := some "gpt-3.5-turbo" },
           { startTime := some "2025-01-01T10:00:30Z",
             prompt := some "Translate hello", model := some "gpt-4" },
           { startTime := some "2025-01-01T10:01:00Z",
             prompt := some "Translate hello", model := some "gpt-4" }])]

/-- C3 counterexample: after the full prioritized pass, trace `t1`
carries TWO active detections (one overkill detection per record, the
overkill detector claiming no records), so a trace does not end with at
most one active detection, and no detection is moved to any suppressed
list — the output is one flat list. -/
theorem pipeline_multiple_active_counterexample :
    ((runPrioritizedDetectionDefault pipelineOverkillTraces []).map fun d =>
      (d.dtype, d.trace_id))
      = [("overkill_model", "t1"), ("overkill_model", "t1")] := by
  set_option maxRecDepth 10000 in decide

/-- C3 amended: the pass returns one flat list (there is no
`suppressed_detections` output): a trace can keep several active
detections from one detector, while a trace whose records were claimed by
the higher-priority retry-loop detection yields nothing from the overkill
detector — its records are filtered from the later detectors' input — and
the retry detection itself carries `suppression_notes` naming the
detectors it pre-empted.  On an escalation trace the model change breaks
the retry run, so the retry detection claims only the same-model tail. -/
theorem pipeline_record_exclusion :
    (((runPrioritizedDetectionDefault pipelineOverkillTraces []).map fun d =>
      (d.dtype, d.trace_id,
        d.suppression_notes.map SuppressionNotes.suppressed_detectors))
      = [("overkill_model", "t1", some []), ("overkill_model", "t1", some [])]) ∧
    (((runPrioritizedDetectionDefault pipelineRetryTraces []).map fun d =>
      (d.dtype, d.trace_id,
        d.suppression_notes.map SuppressionNotes.suppressed_detectors))
      = [("retry_loop", "t1",
          some ["OverkillModelDetector", "FallbackFailureDetector"])]) ∧
    (((runPrioritizedDetectionDefault pipelineEscalationTraces []).map fun d =>
      (d.dtype, d.trace_id, d.records.length,
        d.records.map fun r => r.model.getD ""))
      = [("retry_loop", "t1", 2, ["gpt-4", "gpt-4"])]) := by
  refine ⟨?_, ?_, ?_⟩
  · set_option maxRecDepth 10000 in decide
  · set_option maxRecDepth 10000 in decide
  · set_option maxRecDepth 10000 in decide

/-- The zero-token, no-output, no-error record of the C5 counterexample. -/
def c5Record : CallRecord :=
  { completion_tokens := some 0, usage_completion_tokens := some 0 }

/-- C5 witness: the amended characterisation evaluated at the concrete
zero-token, no-output, no-error record. -/
theorem span_succeeded_semantics_witness :
    OverkillModelDetector.spanSucceeded c5Record =
      (0 < c5Record.usage_completion_tokens.getD 0 ||
        truthyStr c5Record.completion || truthyStr c5Record.output ||
        (!truthyStr c5Record.error && !(c5Record.failed.getD false))) :=
  span_succeeded_semantics c5Record

end Crashlens
